import Mathlib

/-!
Verification of the `agent_builder` evaluation pipeline (`example.py`).

The script orchestrates: running external report-generation commands
(`run_command`, `main`), bootstrapping a per-task folder and metadata file
(`create_task_folder_and_metadata`), invoking an LLM judge and parsing its
free-form reply (`analyze_implementations`), and merging the parsed
evaluation result into the metadata file (`update_metadata`).

We shallowly embed the Python values involved as a `Json` inductive
(Python's `json.loads` output: dicts become ordered association lists,
as Python dicts preserve insertion order), Python exceptions as `PyErr`,
and the filesystem as a finite map from paths to JSON contents.
-/

namespace AgentBuilder

/-- JSON values as produced by Python's `json` module.  A numeral is kept
exactly as its decimal mantissa and power-of-ten exponent (value
`mant * 10 ^ exp10`), unnormalised — exact where Python uses int/float; no
claim compares numerals written in two different notations.  `nan`,
`posInf`, `negInf` model the CPython extensions `NaN`, `Infinity`,
`-Infinity` accepted by `json.loads`. -/
inductive Json where
  | null : Json
  | bool (b : Bool) : Json
  | num (mant : Int) (exp10 : Int) : Json
  | nan : Json
  | posInf : Json
  | negInf : Json
  | str (s : String) : Json
  | arr (elems : List Json) : Json
  | obj (fields : List (String × Json)) : Json

/-- Python dict lookup on an ordered association list (keys are unique in
any list produced by `json.loads` or maintained by `dset`). -/
def dget {α : Type} : List (String × α) → String → Option α
  | [], _ => none
  | (k', v) :: rest, k => if k' = k then some v else dget rest k

/-- Python dict assignment `d[k] = v`: replaces in place if the key is
present (keeping its position, as Python dicts do), else appends. -/
def dset {α : Type} : List (String × α) → String → α → List (String × α)
  | [], k, v => [(k, v)]
  | (k', v') :: rest, k, v =>
      if k' = k then (k', v) :: rest else (k', v') :: dset rest k v

/-- Dict field access on a `Json` value, `none` when not an object or the
key is absent (used only in specification statements, not in the embedded
code paths, which go through `getItem`). -/
def jget : Json → String → Option Json
  | .obj kvs, k => dget kvs k
  | _, _ => none

/-- Two-level field access `jget (jget j k₁) k₂`. -/
def jget2 (j : Json) (k₁ k₂ : String) : Option Json :=
  (jget j k₁).bind fun x => jget x k₂

/-- Python exceptions / process exits relevant to the script.  The script
catches none of these (it only catches `json.JSONDecodeError`, handled
separately inside `analyze_implementations`), so any of them aborts the
process before any further file write. -/
inductive PyErr where
  | keyError (key : String) : PyErr
  | typeError : PyErr
  | indexError : PyErr
  | attributeError : PyErr
  | fileNotFound : PyErr
  | systemExit (code : Nat) : PyErr
deriving DecidableEq

/-- Python subscript read `j[k]` with a string key: dict lookup
(`KeyError` when absent), `TypeError` on any non-dict. -/
def getItem (j : Json) (k : String) : Except PyErr Json :=
  match j with
  | .obj kvs =>
      match dget kvs k with
      | some v => .ok v
      | none => .error (.keyError k)
  | _ => .error .typeError

/-- Python subscript assignment `j[k] = v` with a string key, returning the
updated value: dict update, `TypeError` on any non-dict. -/
def setItem (j : Json) (k : String) (v : Json) : Except PyErr Json :=
  match j with
  | .obj kvs => .ok (.obj (dset kvs k v))
  | _ => .error .typeError

/-- Contiguous-sublist test on character lists (Python `needle in haystack`
for strings). -/
def isSubList (needle : List Char) : List Char → Bool
  | [] => needle.isEmpty
  | c :: rest => needle.isPrefixOf (c :: rest) || isSubList needle rest

/-- Python membership test `k in j` for a string `k`: key test for dicts,
element equality for lists, substring test for strings, `TypeError`
otherwise. -/
def pyContains (j : Json) (k : String) : Except PyErr Bool :=
  match j with
  | .obj kvs => .ok (dget kvs k).isSome
  | .arr xs =>
      .ok (xs.any fun x => match x with | .str s => s = k | _ => false)
  | .str s => .ok (isSubList k.data s.data)
  | _ => .error .typeError

/-- The mapping `impl_to_diff = {"impl_1": "diff_1", ...}` of
`update_metadata` (example.py lines 226-231), composed with `.get`:
a string other than the four literal keys returns `None`, as does any
other hashable value (`None`, booleans, numbers, the float extensions —
none of them equals a key of the dict); an unhashable name (a list or a
dict) makes `dict.get` hash it and raise `TypeError: unhashable type`,
which aborts the merge. -/
def impl_to_diff (name : Json) : Except PyErr (Option String) :=
  match name with
  | .str "impl_1" => .ok (some "diff_1")
  | .str "impl_2" => .ok (some "diff_2")
  | .str "impl_3" => .ok (some "diff_3")
  | .str "impl_4" => .ok (some "diff_4")
  | .str _ => .ok none
  | .null => .ok none
  | .bool _ => .ok none
  | .num _ _ => .ok none
  | .nan => .ok none
  | .posInf => .ok none
  | .negInf => .ok none
  | .arr _ => .error .typeError
  | .obj _ => .error .typeError

/-- The three per-implementation assignments of `update_metadata`
(lines 250-252): `impl["task_success"] = ts`,
`impl["instruction_following"] = insf`, `impl["comment"] = cm`. -/
def setScores (kvs : List (String × Json)) (ts insf cm : Json) :
    List (String × Json) :=
  dset (dset (dset kvs "task_success" ts) "instruction_following" insf)
    "comment" cm

/-- The body of the `if diff_key in impl:` hit (lines 250-253): a dict slot
gets its three score fields set; item assignment on anything else raises
`TypeError`. -/
def updateSlotHit (slot : Json) (rest : List Json) (ts insf cm : Json) :
    Except PyErr (List Json) :=
  match slot with
  | .obj kvs => .ok (Json.obj (setScores kvs ts insf cm) :: rest)
  | _ => .error .typeError

/-- Re-attach an unmatched slot in front of the recursive scan result. -/
def updateSlotMiss (slot : Json) (r : Except PyErr (List Json)) :
    Except PyErr (List Json) :=
  match r with
  | .error e => .error e
  | .ok rest' => .ok (slot :: rest')

/-- The inner loop of `update_metadata` (lines 246-253): scan the
`implementations` list for the first entry containing `diff_key`, update
its three score fields, and stop (`break`).  A non-dict entry that passes
the `in` test would make the subsequent item assignment raise
`TypeError`. -/
def updateFirstSlot (dk : String) (ts insf cm : Json) :
    List Json → Except PyErr (List Json)
  | [] => .ok []
  | slot :: rest =>
    match pyContains slot dk with
    | .error e => .error e
    | .ok true => updateSlotHit slot rest ts insf cm
    | .ok false => updateSlotMiss slot (updateFirstSlot dk ts insf cm rest)

/-- One iteration of the outer loop of `update_metadata` (lines 234-253):
read the entry's `name`, `task_success`, `instruction_following` and
`comment` (each read raises `KeyError` when absent), map the name through
`impl_to_diff.get` (`TypeError` on an unhashable name, `continue` when the
hashable name is unmapped and `get` returns `None`), then locate and
update the matching
slot of `metadata["implementations"]`.  When `metadata["implementations"]`
is a dict Python iterates its keys (strings), on which the `in` test is a
substring test and a hit would raise `TypeError` at the item assignment;
when it is a string Python iterates its one-character strings likewise. -/
def applyEntry (metadata entry : Json) : Except PyErr Json :=
  match getItem entry "name" with
  | .error e => .error e
  | .ok name =>
    match getItem entry "task_success" with
    | .error e => .error e
    | .ok ts =>
      match getItem entry "instruction_following" with
      | .error e => .error e
      | .ok insf =>
        match getItem entry "comment" with
        | .error e => .error e
        | .ok cm =>
          match impl_to_diff name with
          | .error e => .error e
          | .ok none => .ok metadata
          | .ok (some dk) =>
            match getItem metadata "implementations" with
            | .error e => .error e
            | .ok (.arr slots) =>
              (match updateFirstSlot dk ts insf cm slots with
               | .error e => .error e
               | .ok slots' => setItem metadata "implementations" (.arr slots'))
            | .ok (.obj mkvs) =>
              if mkvs.any fun kv => isSubList dk.data kv.1.data then
                .error .typeError
              else .ok metadata
            | .ok (.str s) =>
              if s.data.any fun c => isSubList dk.data [c] then
                .error .typeError
              else .ok metadata
            | .ok _ => .error .typeError

/-- One of the three guarded assignments of the evaluation section
(lines 256-268): `if k in analysis_results["evaluation"]:
metadata["evaluation"][k] = analysis_results["evaluation"][k]`. -/
def applyEvalKey (k : String) (metadata aev : Json) : Except PyErr Json :=
  match pyContains aev k with
  | .error e => .error e
  | .ok false => .ok metadata
  | .ok true =>
    match getItem aev k with
    | .error e => .error e
    | .ok v =>
      match getItem metadata "evaluation" with
      | .error e => .error e
      | .ok ev =>
        match setItem ev k v with
        | .error e => .error e
        | .ok ev' => setItem metadata "evaluation" ev'

/-- The iteration `for implementation in analysis_results["implementations"]`
(line 234): a list iterates its elements; a dict iterates its keys (strings);
a string iterates its one-character strings (each then rejected by
`applyEntry` exactly as Python rejects `entry["name"]` on a `str`); anything
else is not iterable (`TypeError`). -/
def iterEntries (entriesJ : Json) (metadata : Json) : Except PyErr Json :=
  match entriesJ with
  | .arr es => es.foldlM applyEntry metadata
  | .obj kvs => (kvs.map fun kv => Json.str kv.1).foldlM applyEntry metadata
  | .str s =>
      (s.data.map fun c => Json.str (String.mk [c])).foldlM applyEntry
        metadata
  | _ => .error .typeError

/-- The pure merge logic of `update_metadata` (example.py lines 219-268),
from the already-loaded metadata JSON and analysis-results value to the
metadata JSON that would be written back; an `Except.error` outcome models
an uncaught Python exception, which aborts the process before the file is
written back (line 271). -/
def update_metadata (metadata analysis : Json) : Except PyErr Json :=
  match getItem analysis "implementations" with
  | .error e => .error e
  | .ok entriesJ =>
    match iterEntries entriesJ metadata with
    | .error e => .error e
    | .ok md₁ =>
      match jget analysis "evaluation" with
      | none => .ok md₁
      | some aev =>
        match applyEvalKey "best_diff" md₁ aev with
        | .error e => .error e
        | .ok m₂ =>
          match applyEvalKey "preference_rationale" m₂ aev with
          | .error e => .error e
          | .ok m₃ => applyEvalKey "improved_diff" m₃ aev

/-! ### A model of Python `json.loads`

`analyze_implementations` (example.py lines 171-216) feeds the model reply
through `json.loads`.  We embed the JSON grammar accepted by CPython's
`json` module with default settings: standard JSON values, the `NaN` /
`Infinity` / `-Infinity` extensions, last-wins duplicate object keys,
unescaped control characters rejected (`strict=True`), whole input consumed
(trailing data is an error).  Numbers are parsed exactly as rationals;
lone `\uXXXX` surrogate escapes (which CPython keeps as unpaired
surrogates) fall outside Lean's `Char` and are mapped through
`Char.ofNat`'s fallback — no claim exercises them. -/

/-- The four JSON whitespace characters skipped by `json.loads`. -/
def isJsonWs (c : Char) : Bool :=
  c = ' ' || c = '\t' || c = '\n' || c = '\r'

def skipWs : List Char → List Char
  | [] => []
  | c :: cs => if isJsonWs c then skipWs cs else c :: cs

def hexVal (c : Char) : Option Nat :=
  if '0' ≤ c ∧ c ≤ '9' then some (c.toNat - '0'.toNat)
  else if 'a' ≤ c ∧ c ≤ 'f' then some (c.toNat - 'a'.toNat + 10)
  else if 'A' ≤ c ∧ c ≤ 'F' then some (c.toNat - 'A'.toNat + 10)
  else none

/-- The simple escape sequences of JSON strings. -/
def escChar (c : Char) : Option Char :=
  match c with
  | '"' => some '"'
  | '\\' => some '\\'
  | '/' => some '/'
  | 'b' => some (Char.ofNat 8)
  | 'f' => some (Char.ofNat 12)
  | 'n' => some '\n'
  | 'r' => some '\r'
  | 't' => some '\t'
  | _ => none

/-- Body of a JSON string after the opening quote: returns the decoded
string and the input after the closing quote.  Surrogate pairs in `\u`
escapes are combined as CPython does.  The first argument is fuel (each
step consumes at least one input character, so callers pass
`input.length + 1`, which never runs out). -/
def parseStringAux : Nat → List Char → List Char → Option (String × List Char)
  | 0, _, _ => none
  | _ + 1, _acc, [] => none
  | fuel + 1, acc,
      '\\' :: 'u' :: h1 :: h2 :: h3 :: h4 ::
        '\\' :: 'u' :: g1 :: g2 :: g3 :: g4 :: rest2 =>
    (match hexVal h1, hexVal h2, hexVal h3, hexVal h4 with
     | some a, some b, some c2, some d =>
       let code := ((a * 16 + b) * 16 + c2) * 16 + d
       (match hexVal g1, hexVal g2, hexVal g3, hexVal g4 with
        | some a2, some b2, some c3, some d2 =>
          let code2 := ((a2 * 16 + b2) * 16 + c3) * 16 + d2
          if 0xD800 ≤ code ∧ code < 0xDC00 ∧ 0xDC00 ≤ code2 ∧ code2 < 0xE000
          then
            parseStringAux fuel
              (Char.ofNat (0x10000 + (code - 0xD800) * 0x400 + (code2 - 0xDC00))
                :: acc) rest2
          else
            parseStringAux fuel (Char.ofNat code :: acc)
              ('\\' :: 'u' :: g1 :: g2 :: g3 :: g4 :: rest2)
        | _, _, _, _ => none)
     | _, _, _, _ => none)
  | fuel + 1, acc, '\\' :: 'u' :: h1 :: h2 :: h3 :: h4 :: rest1 =>
    (match hexVal h1, hexVal h2, hexVal h3, hexVal h4 with
     | some a, some b, some c2, some d =>
       parseStringAux fuel
         (Char.ofNat (((a * 16 + b) * 16 + c2) * 16 + d) :: acc) rest1
     | _, _, _, _ => none)
  | fuel + 1, acc, '\\' :: e :: rest1 =>
    (match escChar e with
     | some ec => parseStringAux fuel (ec :: acc) rest1
     | none => none)
  | _ + 1, _acc, ['\\'] => none
  | fuel + 1, acc, c :: rest =>
    if c = '"' then some (String.mk acc.reverse, rest)
    else if c.toNat < 32 then none
    else parseStringAux fuel (c :: acc) rest

/-- Longest digit run at the head of the input. -/
def spanDigits : List Char → List Char × List Char
  | [] => ([], [])
  | c :: rest =>
    if c.isDigit then
      let (ds, r) := spanDigits rest
      (c :: ds, r)
    else ([], c :: rest)

def digitsVal (ds : List Char) : Nat :=
  ds.foldl (fun n c => n * 10 + (c.toNat - '0'.toNat)) 0

/-- Optional fraction part `\.\d+`; an unconsumed dot is left in place,
as in CPython's NUMBER_RE maximal match. -/
def parseFrac : List Char → List Char × List Char
  | '.' :: rest =>
    (match spanDigits rest with
     | ([], _) => ([], '.' :: rest)
     | (ds, r) => (ds, r))
  | cs => ([], cs)

/-- Optional exponent part `[eE][-+]?\d+`; returns `(sign-is-minus,
digits)` when present. -/
def parseExp : List Char → Option (Bool × List Char) × List Char
  | [] => (none, [])
  | e :: rest =>
    if e = 'e' ∨ e = 'E' then
      match rest with
      | '+' :: r2 =>
        (match spanDigits r2 with
         | ([], _) => (none, e :: rest)
         | (ds, r) => (some (false, ds), r))
      | '-' :: r2 =>
        (match spanDigits r2 with
         | ([], _) => (none, e :: rest)
         | (ds, r) => (some (true, ds), r))
      | r2 =>
        (match spanDigits r2 with
         | ([], _) => (none, e :: rest)
         | (ds, r) => (some (false, ds), r))
    else (none, e :: rest)

/-- Exact mantissa/exponent value of a parsed JSON numeral. -/
def mkNum (neg : Bool) (intDs fracDs : List Char)
    (ex : Option (Bool × List Char)) : Int × Int :=
  let mantNat := digitsVal (intDs ++ fracDs)
  let mant : Int := if neg then -(mantNat : Int) else (mantNat : Int)
  let e : Int :=
    (match ex with
     | none => 0
     | some (true, ds) => -(digitsVal ds : Int)
     | some (false, ds) => (digitsVal ds : Int)) - (fracDs.length : Int)
  (mant, e)

/-- JSON numeral `(-?(0|[1-9]\d*))(\.\d+)?([eE][-+]?\d+)?`, maximal match,
returning the value and the remaining input. -/
def parseNumber (cs : List Char) : Option ((Int × Int) × List Char) :=
  let (neg, cs₁) :=
    match cs with
    | '-' :: t => (true, t)
    | _ => (false, cs)
  match cs₁ with
  | '0' :: t =>
    let (fds, r1) := parseFrac t
    let (ex, r2) := parseExp r1
    some (mkNum neg ['0'] fds ex, r2)
  | c :: t =>
    if c.isDigit then
      let (ds, r) := spanDigits t
      let (fds, r1) := parseFrac r
      let (ex, r2) := parseExp r1
      some (mkNum neg (c :: ds) fds ex, r2)
    else none
  | [] => none

mutual

/-- One JSON value at the head of the input (no leading whitespace, as in
CPython's `scan_once`), by fuel-bounded recursive descent. -/
def parseValue : Nat → List Char → Option (Json × List Char)
  | 0, _ => none
  | fuel + 1, cs =>
    match cs with
    | '"' :: rest =>
      (parseStringAux (rest.length + 1) [] rest).map fun p =>
        (Json.str p.1, p.2)
    | '\x7b' :: rest =>
      (match skipWs rest with
       | '\x7d' :: r2 => some (Json.obj [], r2)
       | r1 => parseObjItems fuel r1 [])
    | '[' :: rest =>
      (match skipWs rest with
       | ']' :: r2 => some (Json.arr [], r2)
       | r1 => parseArrItems fuel r1 [])
    | 'n' :: 'u' :: 'l' :: 'l' :: rest => some (Json.null, rest)
    | 't' :: 'r' :: 'u' :: 'e' :: rest => some (Json.bool true, rest)
    | 'f' :: 'a' :: 'l' :: 's' :: 'e' :: rest => some (Json.bool false, rest)
    | 'N' :: 'a' :: 'N' :: rest => some (Json.nan, rest)
    | 'I' :: 'n' :: 'f' :: 'i' :: 'n' :: 'i' :: 't' :: 'y' :: rest =>
      some (Json.posInf, rest)
    | '-' :: 'I' :: 'n' :: 'f' :: 'i' :: 'n' :: 'i' :: 't' :: 'y' :: rest =>
      some (Json.negInf, rest)
    | _ => (parseNumber cs).map fun p => (Json.num p.1.1 p.1.2, p.2)

/-- Comma-separated array items after `[` (first item not yet read). -/
def parseArrItems : Nat → List Char → List Json → Option (Json × List Char)
  | 0, _, _ => none
  | fuel + 1, cs, acc =>
    match parseValue fuel (skipWs cs) with
    | none => none
    | some (v, r1) =>
      match skipWs r1 with
      | ',' :: r2 => parseArrItems fuel r2 (v :: acc)
      | ']' :: r2 => some (Json.arr (v :: acc).reverse, r2)
      | _ => none

/-- Comma-separated object members after `{` (first member not yet read);
duplicate keys follow Python's last-wins dict semantics via `dset`. -/
def parseObjItems : Nat → List Char → List (String × Json) →
    Option (Json × List Char)
  | 0, _, _ => none
  | fuel + 1, cs, acc =>
    match skipWs cs with
    | '"' :: rest =>
      (match parseStringAux (rest.length + 1) [] rest with
       | none => none
       | some (k, r1) =>
         match skipWs r1 with
         | ':' :: r2 =>
           (match parseValue fuel (skipWs r2) with
            | none => none
            | some (v, r3) =>
              match skipWs r3 with
              | ',' :: r4 => parseObjItems fuel r4 (dset acc k v)
              | '\x7d' :: r4 => some (Json.obj (dset acc k v), r4)
              | _ => none)
         | _ => none)
    | _ => none

end

/-- `json.loads` on a character list: skip leading whitespace, read one
value, require only whitespace to remain (else "Extra data"); `none`
models `json.JSONDecodeError`. -/
def json_loads_chars (cs : List Char) : Option Json :=
  match parseValue (2 * cs.length + 2) (skipWs cs) with
  | some (v, rest) => if (skipWs rest).isEmpty then some v else none
  | none => none

/-- `json.loads` on a string. -/
def json_loads (s : String) : Option Json :=
  json_loads_chars s.data

/-! ### Response parsing of `analyze_implementations` (lines 171-216) -/

/-- Python `str.find`: index of the first occurrence (`-1` becomes
`none`). -/
def pyFind : List Char → Char → Option Nat
  | [], _ => none
  | x :: t, c => if x = c then some 0 else (pyFind t c).map (· + 1)

/-- Python `str.rfind`: index of the last occurrence. -/
def pyRFind : List Char → Char → Option Nat
  | [], _ => none
  | x :: t, c =>
    match pyRFind t c with
    | some i => some (i + 1)
    | none => if x = c then some 0 else none

/-- Python slice `s[a:b]` for non-negative bounds: empty when `b ≤ a`. -/
def pySlice (cs : List Char) (a b : Nat) : List Char :=
  (cs.drop a).take (b - a)

/-- Lines 173-180: `first_brace = content.find("{")`,
`last_brace = content.rfind("}")`; when both are found the substring
`content[first_brace : last_brace + 1]` is handed to `json.loads`,
otherwise the whole text is. -/
def extract_json_span (content : List Char) : List Char :=
  match pyFind content '\x7b', pyRFind content '\x7d' with
  | some f, some l => pySlice content f (l + 1)
  | _, _ => content

/-- The literal comment/rationale of the parse-failure fallback. -/
def errComment : Json := Json.str "Error parsing LLM response"

/-- One implementation entry of the fallback structure (lines 186-209). -/
def fallbackImpl (name : String) : Json :=
  Json.obj [("name", Json.str name), ("task_success", Json.num 0 0),
    ("instruction_following", Json.num 0 0), ("comment", errComment)]

/-- The fixed structure returned when the model reply fails to parse as
JSON (lines 184-216). -/
def fallback_result : Json :=
  Json.obj [
    ("implementations", Json.arr [fallbackImpl "impl_1", fallbackImpl "impl_2",
      fallbackImpl "impl_3", fallbackImpl "impl_4"]),
    ("evaluation", Json.obj [("best_diff", Json.num 0 0),
      ("preference_rationale", errComment), ("improved_diff", Json.str "")])]

/-- The response-handling tail of `analyze_implementations` (lines
171-216), from the model reply text `response.content` to the returned
value: parse the brace-trimmed span (or the whole text when the braces are
not found), and on `json.JSONDecodeError` return `fallback_result` instead
of aborting.  Prompt assembly and the LLM call (lines 44-169) are
interactions with an external collaborator and are not modelled. -/
def analyze_implementations (content : String) : Json :=
  match json_loads_chars (extract_json_span content.data) with
  | some v => v
  | none => fallback_result

/-! ### Filesystem model and the task bootstrapper (lines 275-329) -/

/-- The filesystem as the script observes it: directories created with
`os.makedirs`, and JSON files (every file the script reads or writes holds
JSON; we store the parsed value, since the script always round-trips
through `json.load` / `json.dump`). -/
structure FS where
  dirs : List String
  files : List (String × Json)

def fsRead (fs : FS) (p : String) : Option Json := dget fs.files p

def fsWrite (fs : FS) (p : String) (j : Json) : FS :=
  ⟨fs.dirs, dset fs.files p j⟩

/-- `os.makedirs(p, exist_ok=True)`. -/
def fsMkdir (fs : FS) (p : String) : FS := ⟨p :: fs.dirs, fs.files⟩

/-- `os.path.join` for the POSIX paths this script builds: an absolute
second component replaces the first, otherwise the two are joined with a
slash. -/
def pyJoin (a b : String) : String :=
  match b.data with
  | '/' :: _ => b
  | _ => a ++ "/" ++ b

/-- Python truthiness of a JSON value (`NaN` and the infinities are truthy
floats). -/
def pyTruthy : Json → Bool
  | .null => false
  | .bool b => b
  | .num m _ => m ≠ 0
  | .nan => true
  | .posInf => true
  | .negInf => true
  | .str s => !s.isEmpty
  | .arr xs => !xs.isEmpty
  | .obj kvs => !kvs.isEmpty

/-- Python truthiness of the result of `dict.get` (`None` when absent). -/
def optTruthy : Option Json → Bool
  | none => false
  | some j => pyTruthy j

/-- Python `j.get(k)`: `AttributeError` on a non-dict receiver. -/
def pyGet (j : Json) (k : String) : Except PyErr (Option Json) :=
  match j with
  | .obj kvs => .ok (dget kvs k)
  | _ => .error .attributeError

/-- `metadata["implementations"][n][k] = v` (lines 319-322): `IndexError`
past the end of the list, `TypeError` when the element is not a dict. -/
def setSlotDiff (slots : List Json) (n : Nat) (k : String) (v : Json) :
    Except PyErr (List Json) :=
  if h : n < slots.length then
    match slots.get ⟨n, h⟩ with
    | .obj kvs => .ok (slots.set n (.obj (dset kvs k v)))
    | _ => .error .typeError
  else .error .indexError

/-- One line of the `metadata["task_details"][key] = task_data.get(key, "")`
block (lines 312-318). -/
def setFromTask (task_data : Json) (key : String) (target : Json) :
    Except PyErr Json :=
  match pyGet task_data key with
  | .error e => .error e
  | .ok v => setItem target key (v.getD (.str ""))

/-- One line of the
`metadata["implementations"][n][key] = task_data.get(key, "")` block
(lines 319-322). -/
def setSlotFromTask (task_data : Json) (slots : List Json) (n : Nat)
    (key : String) : Except PyErr (List Json) :=
  match pyGet task_data key with
  | .error e => .error e
  | .ok v => setSlotDiff slots n key (v.getD (.str ""))

def task_detail_keys : List String :=
  ["repo_name", "before_sha", "after_sha", "pr_description",
    "reference_implementation_diff"]

/-- Lines 306-322: populate the template copy with the generated task id
and the task-data fields (each with default `""` when absent), returning
the metadata value to be written back.  `metadata["implementations"]`
being a dict would make the integer subscript raise `KeyError` (its keys
are strings), any other non-list `TypeError`. -/
def populate_metadata (tpl task_data : Json) (task_id : String) :
    Except PyErr Json :=
  match setItem tpl "task_id" (.str task_id) with
  | .error e => .error e
  | .ok md₁ =>
    match pyGet task_data "jira_id" with
    | .error e => .error e
    | .ok jv =>
      match setItem md₁ "jira" (jv.getD (.str "")) with
      | .error e => .error e
      | .ok md₂ =>
        match getItem md₂ "task_details" with
        | .error e => .error e
        | .ok td =>
          match task_detail_keys.foldlM
              (fun t k => setFromTask task_data k t) td with
          | .error e => .error e
          | .ok td' =>
            match setItem md₂ "task_details" td' with
            | .error e => .error e
            | .ok md₃ =>
              match getItem md₃ "implementations" with
              | .error e => .error e
              | .ok (.arr slots) =>
                (match setSlotFromTask task_data slots 0 "diff_1" with
                 | .error e => .error e
                 | .ok s₁ =>
                   match setSlotFromTask task_data s₁ 1 "diff_2" with
                   | .error e => .error e
                   | .ok s₂ =>
                     match setSlotFromTask task_data s₂ 2 "diff_3" with
                     | .error e => .error e
                     | .ok s₃ =>
                       match setSlotFromTask task_data s₃ 3 "diff_4" with
                       | .error e => .error e
                       | .ok s₄ =>
                         setItem md₃ "implementations" (.arr s₄))
              | .ok (.obj _) => .error (.keyError "0")
              | .ok _ => .error .typeError

/-- `create_task_folder_and_metadata` (lines 275-329) as a filesystem
transformer: returns the filesystem after the call together with the
returned task-folder path, or the Python exception / `sys.exit(1)` that
aborted it (`systemExit 1` models the two `print`+`sys.exit(1)` paths at
lines 277-278 and 287-288; the returned filesystem at that point shows
what had been created so far).  `task_id` stands for the `uuid.uuid4()`
draw of line 307, an input of the model since it is random. -/
def create_task_folder_and_metadata (fs : FS) (task_data_path : String)
    (task_id : String) : FS × Except PyErr String :=
  match fsRead fs task_data_path with
  | none => (fs, .error (.systemExit 1))
  | some task_data =>
    match pyGet task_data "jira_id" with
    | .error e => (fs, .error e)
    | .ok jiraOpt =>
      if optTruthy jiraOpt then
        match jiraOpt with
        | some (.str jid) =>
          let task_folder := pyJoin "tasks" jid
          let fs₁ := fsMkdir fs task_folder
          (match fsRead fs₁ "tasks/metadata_base.json" with
           | none => (fs₁, .error .fileNotFound)
           | some tpl =>
             let mdPath := pyJoin task_folder "metadata.json"
             let fs₂ := fsWrite fs₁ mdPath tpl
             match fsRead fs₂ mdPath with
             | none => (fs₂, .error .fileNotFound)
             | some tplBack =>
               match populate_metadata tplBack task_data task_id with
               | .error e => (fs₂, .error e)
               | .ok md => (fsWrite fs₂ mdPath md, .ok task_folder))
        | _ => (fs, .error .typeError)
      else (fs, .error (.systemExit 1))

/-- The file-level `update_metadata` (lines 219-272): read
`task_folder/metadata.json`, merge, and write back only when the merge
raised nothing. -/
def update_metadata_file (fs : FS) (task_folder : String) (analysis : Json) :
    FS × Except PyErr Unit :=
  let mdPath := pyJoin task_folder "metadata.json"
  match fsRead fs mdPath with
  | none => (fs, .error .fileNotFound)
  | some md =>
    match update_metadata md analysis with
    | .error e => (fs, .error e)
    | .ok md' => (fsWrite fs mdPath md', .ok ())

/-! ### Command runner (lines 11-18, 353-355) -/

/-- `run_command` (lines 11-18): the external command's exit status is the
input; a non-zero status triggers `sys.exit(1)`. -/
def run_command (returncode : Int) : Except PyErr Unit :=
  if returncode ≠ 0 then .error (.systemExit 1) else .ok ()

/-- The `for command in commands: run_command(command)` loop of `main`
(lines 353-355), driven by the exit statuses the environment gives the
successive commands.  Returns how many commands were executed and `ok`
iff the loop ran to completion (each executed command is started before
its status is inspected, hence the `+1` on the aborting command). -/
def runCommands : List Int → Nat × Except PyErr Unit
  | [] => (0, .ok ())
  | code :: rest =>
    match run_command code with
    | .error e => (1, .error e)
    | .ok _ =>
      let r := runCommands rest
      (r.1 + 1, r.2)

/-- Whether `main` reaches Step 2 (the `create_task_folder_and_metadata`
call at line 358): only when the whole command loop succeeded; a
`sys.exit(1)` inside `run_command` terminates the process first. -/
def main_reaches_bootstrapper (codes : List Int) : Bool :=
  match (runCommands codes).2 with
  | .ok _ => true
  | .error _ => false

/-! ### Claim theorems for the merge frame property (C1) -/

/-- The three per-slot fields written by the merge (lines 250-252). -/
def scoreKeys : List String :=
  ["task_success", "instruction_following", "comment"]

/-- The three evaluation-summary fields written by the merge
(lines 256-268). -/
def evalKeys : List String :=
  ["best_diff", "preference_rationale", "improved_diff"]

/-- A slot changed at most in its `scoreKeys` fields. -/
def slotFrame (old nw : Json) : Prop :=
  nw = old ∨ ∃ okvs nkvs, old = .obj okvs ∧ nw = .obj nkvs ∧
    ∀ k, k ∉ scoreKeys → dget nkvs k = dget okvs k

/-- The `implementations` value changed at most slot-wise, each slot at
most in its `scoreKeys` fields (same number of slots, same order). -/
def implsFrame (old nw : Option Json) : Prop :=
  nw = old ∨ ∃ a b, old = some (.arr a) ∧ nw = some (.arr b) ∧
    a.length = b.length ∧
    ∀ i, i < a.length → slotFrame (a.getD i .null) (b.getD i .null)

/-- The `evaluation` value changed at most in its `evalKeys` fields. -/
def evalObjFrame (old nw : Option Json) : Prop :=
  nw = old ∨ ∃ okvs nkvs, old = some (.obj okvs) ∧ nw = some (.obj nkvs) ∧
    ∀ k, k ∉ evalKeys → dget nkvs k = dget okvs k

/-- Full frame of the merge on a metadata value. -/
def mdFrame (old nw : Json) : Prop :=
  (∀ k, k ≠ "implementations" → k ≠ "evaluation" → jget nw k = jget old k) ∧
  implsFrame (jget old "implementations") (jget nw "implementations") ∧
  evalObjFrame (jget old "evaluation") (jget nw "evaluation")

/-! ### Claim theorems for slot targeting (C4) -/

instance {ε α : Type} [DecidableEq ε] [DecidableEq α] :
    DecidableEq (Except ε α) := fun a b =>
  match a, b with
  | .error e₁, .error e₂ =>
      if h : e₁ = e₂ then isTrue (by rw [h])
      else isFalse (by intro hh; cases hh; exact h rfl)
  | .ok x, .ok y =>
      if h : x = y then isTrue (by rw [h])
      else isFalse (by intro hh; cases hh; exact h rfl)
  | .error _, .ok _ => isFalse (by intro hh; cases hh)
  | .ok _, .error _ => isFalse (by intro hh; cases hh)

/-- A complete implementation score entry of an evaluation result, as in
the judge's output schema (lines 50-82). -/
def mkImplEntry (name : String) (ts insf cm : Json) : Json :=
  Json.obj [("name", Json.str name), ("task_success", ts),
    ("instruction_following", insf), ("comment", cm)]

theorem dget_dset_self {α : Type} (l : List (String × α)) (k : String) (v : α) :
    dget (dset l k v) k = some v := by
  induction l with
  | nil => simp [dget, dset]
  | cons kv rest ih =>
      obtain ⟨k1, v1⟩ := kv
      by_cases h : k1 = k
      · simp [dget, dset, h]
      · simp [dget, dset, h, ih]

theorem dget_dset_ne {α : Type} (l : List (String × α)) (k k' : String) (v : α)
    (h : k' ≠ k) : dget (dset l k v) k' = dget l k' := by
  induction l with
  | nil => simp [dget, dset, Ne.symm h]
  | cons kv rest ih =>
      obtain ⟨k1, v1⟩ := kv
      by_cases hk : k1 = k
      · subst hk
        simp [dget, dset, Ne.symm h]
      · by_cases hk' : k1 = k'
        · subst hk'
          simp [dget, dset, hk]
        · simp [dget, dset, hk, hk', ih]

theorem dset_eq_of_dget {α : Type} (l : List (String × α)) (k : String) (v : α)
    (h : dget l k = some v) : dset l k v = l := by
  induction l with
  | nil => simp [dget] at h
  | cons kv rest ih =>
      obtain ⟨k1, v1⟩ := kv
      by_cases hk : k1 = k
      · subst hk
        simp [dget] at h
        subst h
        simp [dset]
      · simp only [dget, if_neg hk] at h
        simp [dset, hk, ih h]

/-! ### Helper lemmas on find / rfind / slice -/

theorem pyFind_eq_none_of_not_mem {s : List Char} {c : Char} (h : c ∉ s) :
    pyFind s c = none := by
  induction s with
  | nil => rfl
  | cons x t ih =>
      have hx : x ≠ c := fun hxc => h (by simp [hxc])
      have ht : c ∉ t := fun hm => h (List.mem_cons_of_mem _ hm)
      simp [pyFind, ih ht, hx]

theorem pyFind_append_of_not_mem (p rest : List Char) (c : Char) (i : Nat)
    (hp : c ∉ p) (h : pyFind rest c = some i) :
    pyFind (p ++ rest) c = some (p.length + i) := by
  induction p with
  | nil => simpa using h
  | cons x t ih =>
      have hx : x ≠ c := fun hxc => hp (by simp [hxc])
      have ht : c ∉ t := fun hm => hp (List.mem_cons_of_mem _ hm)
      simp only [List.cons_append, pyFind, if_neg hx, List.length_cons,
        List.append_eq]
      rw [ih ht]
      simp only [Option.map_some']
      congr 1
      omega

theorem pyRFind_eq_none_of_not_mem {s : List Char} {c : Char} (h : c ∉ s) :
    pyRFind s c = none := by
  induction s with
  | nil => rfl
  | cons x t ih =>
      have hx : x ≠ c := fun hxc => h (by simp [hxc])
      have ht : c ∉ t := fun hm => h (List.mem_cons_of_mem _ hm)
      simp [pyRFind, ih ht, hx]

theorem pyRFind_append_of_not_mem {pre s : List Char} {c : Char}
    (h : c ∉ s) : pyRFind (pre ++ s) c = pyRFind pre c := by
  induction pre with
  | nil => simpa using pyRFind_eq_none_of_not_mem h
  | cons x t ih =>
      simp only [List.cons_append, pyRFind, List.append_eq]
      rw [ih]

theorem pyRFind_append_singleton (l : List Char) (c : Char) :
    pyRFind (l ++ [c]) c = some l.length := by
  induction l with
  | nil => simp [pyRFind]
  | cons x t ih => simp [pyRFind, ih]

theorem pySlice_middle (p j s : List Char) :
    pySlice (p ++ j ++ s) p.length (p.length + j.length) = j := by
  unfold pySlice
  rw [List.append_assoc, List.drop_left, Nat.add_sub_cancel_left,
    List.take_left]

/-! ### Claim theorems for the judge-invoker parsing (C2, C3, C10) -/

/-- C2: for every model reply whose extracted text fails to parse as JSON,
`analyze_implementations` returns exactly the fixed fallback structure —
four entries `impl_1`..`impl_4` with both scores `0` and the literal
comment `"Error parsing LLM response"`, and an evaluation object with
`best_diff = 0`, the literal rationale and an empty `improved_diff` —
rather than aborting (the embedding is total: the `JSONDecodeError` branch
returns a value). -/
theorem analyze_implementations_fallback (content : String)
    (h : json_loads_chars (extract_json_span content.data) = none) :
    analyze_implementations content =
      Json.obj [
        ("implementations", Json.arr [
          Json.obj [("name", Json.str "impl_1"), ("task_success", Json.num 0 0),
            ("instruction_following", Json.num 0 0),
            ("comment", Json.str "Error parsing LLM response")],
          Json.obj [("name", Json.str "impl_2"), ("task_success", Json.num 0 0),
            ("instruction_following", Json.num 0 0),
            ("comment", Json.str "Error parsing LLM response")],
          Json.obj [("name", Json.str "impl_3"), ("task_success", Json.num 0 0),
            ("instruction_following", Json.num 0 0),
            ("comment", Json.str "Error parsing LLM response")],
          Json.obj [("name", Json.str "impl_4"), ("task_success", Json.num 0 0),
            ("instruction_following", Json.num 0 0),
            ("comment", Json.str "Error parsing LLM response")]]),
        ("evaluation", Json.obj [("best_diff", Json.num 0 0),
          ("preference_rationale", Json.str "Error parsing LLM response"),
          ("improved_diff", Json.str "")])] := by
  simp only [analyze_implementations, h]
  rfl

/-- Witness for C2 at the spec's example reply `I cannot comply.`. -/
theorem analyze_implementations_fallback_witness :
    json_loads_chars (extract_json_span "I cannot comply.".data) = none ∧
    analyze_implementations "I cannot comply." = fallback_result :=
  ⟨by rfl, by rw [analyze_implementations_fallback "I cannot comply." (by rfl)]; rfl⟩

/-- C3: the parser hands `json.loads` the substring from the first `{` to
the last `}` inclusive, so a reply consisting of a valid JSON object
(starting with `{`, ending with `}`) surrounded by brace-free prose parses
to exactly the embedded object; and when the text contains no brace at
all, the whole text is parsed instead. -/
theorem analyze_implementations_embedded_object :
    (∀ (p j s : List Char) (v : Json),
        '\x7b' ∉ p → '\x7d' ∉ s →
        (∃ j₀, j = '\x7b' :: (j₀ ++ ['\x7d'])) →
        json_loads_chars j = some v →
        analyze_implementations (String.mk (p ++ j ++ s)) = v) ∧
    (∀ (cs : List Char) (v : Json),
        '\x7b' ∉ cs → '\x7d' ∉ cs →
        json_loads_chars cs = some v →
        analyze_implementations (String.mk cs) = v) := by
  constructor
  · rintro p j s v hp hs ⟨j₀, rfl⟩ hv
    have e1 : p ++ ('\x7b' :: (j₀ ++ ['\x7d'])) = (p ++ '\x7b' :: j₀) ++ ['\x7d'] := by
      simp only [List.append_assoc, List.cons_append]
    have hfind : pyFind (p ++ ('\x7b' :: (j₀ ++ ['\x7d'])) ++ s) '\x7b' =
        some (p.length + 0) := by
      rw [List.append_assoc]
      exact pyFind_append_of_not_mem p ('\x7b' :: (j₀ ++ ['\x7d']) ++ s)
        '\x7b' 0 hp (by rfl)
    have hrfind : pyRFind (p ++ ('\x7b' :: (j₀ ++ ['\x7d'])) ++ s) '\x7d' =
        some (p.length + (j₀.length + 1)) := by
      rw [pyRFind_append_of_not_mem hs, e1, pyRFind_append_singleton]
      congr 1
      simp only [List.length_append, List.length_cons]
    have hslice : pySlice (p ++ ('\x7b' :: (j₀ ++ ['\x7d'])) ++ s) p.length
        (p.length + ('\x7b' :: (j₀ ++ ['\x7d'])).length) =
        '\x7b' :: (j₀ ++ ['\x7d']) := pySlice_middle p _ s
    simp only [analyze_implementations, extract_json_span, String.mk]
    rw [hfind, hrfind]
    dsimp only
    rw [show p.length + 0 = p.length from by omega]
    rw [show p.length + (j₀.length + 1) + 1 =
        p.length + ('\x7b' :: (j₀ ++ ['\x7d'])).length from by
      simp only [List.length_cons, List.length_append, List.length_nil]
      omega]
    rw [hslice, hv]
  · intro cs v hp hs hv
    have h1 : pyFind cs '\x7b' = none := pyFind_eq_none_of_not_mem hp
    have h2 : pyRFind cs '\x7d' = none := pyRFind_eq_none_of_not_mem hs
    simp only [analyze_implementations, extract_json_span, String.mk]
    rw [h1, h2]
    simp [hv]

/-- Witness for C3 at the spec's example reply
`Here is the result: \x7b"implementations": [], "evaluation": \x7b\x7d\x7d Thanks.`:
the embedded object is returned and the prose ignored; plus an instance of
the no-brace branch on the whole text `3`. -/
theorem analyze_implementations_embedded_object_witness :
    analyze_implementations (String.mk ("Here is the result: ".data ++
        ('\x7b' :: ("\"implementations\": [], \"evaluation\": \x7b\x7d".data
          ++ ['\x7d'])) ++ " Thanks.".data)) =
      Json.obj [("implementations", Json.arr []),
        ("evaluation", Json.obj [])] ∧
    analyze_implementations (String.mk "3".data) = Json.num 3 0 :=
  ⟨analyze_implementations_embedded_object.1
      "Here is the result: ".data
      ('\x7b' :: ("\"implementations\": [], \"evaluation\": \x7b\x7d".data
        ++ ['\x7d']))
      " Thanks.".data
      (Json.obj [("implementations", Json.arr []),
        ("evaluation", Json.obj [])])
      (by decide) (by decide)
      ⟨"\"implementations\": [], \"evaluation\": \x7b\x7d".data, rfl⟩
      (by rfl),
    analyze_implementations_embedded_object.2 "3".data (Json.num 3 0)
      (by decide) (by decide) (by rfl)⟩

/-- C10: when the last `}` of the reply lies strictly before the first
`{`, the extracted span is the empty string, which fails to parse, so the
judge-invoker returns the fallback structure (it does not fall back to
parsing the whole text). -/
theorem analyze_implementations_empty_span (cs : List Char) (f l : Nat)
    (hf : pyFind cs '\x7b' = some f) (hl : pyRFind cs '\x7d' = some l)
    (hlt : l < f) :
    extract_json_span cs = [] ∧
    json_loads_chars (extract_json_span cs) = none ∧
    analyze_implementations (String.mk cs) = fallback_result := by
  have hempty : extract_json_span cs = [] := by
    simp only [extract_json_span, hf, hl, pySlice]
    rw [Nat.sub_eq_zero_of_le (by omega), List.take_zero]
  refine ⟨hempty, ?_, ?_⟩
  · rw [hempty]; rfl
  · simp only [analyze_implementations, String.mk]
    rw [hempty]
    rfl

/-- Witness for C10 at the reply `} see {`. -/
theorem analyze_implementations_empty_span_witness :
    pyFind "\x7d see \x7b".data '\x7b' = some 6 ∧
    pyRFind "\x7d see \x7b".data '\x7d' = some 0 ∧
    analyze_implementations (String.mk "\x7d see \x7b".data) =
      fallback_result :=
  ⟨by rfl, by rfl,
    (analyze_implementations_empty_span "\x7d see \x7b".data 6 0 (by rfl)
      (by rfl) (by omega)).2.2⟩

/-! ### Claim theorems for the command runner (C5) -/

/-- C5: when the commands before position `i` all succeed and command `i`
exits non-zero, the loop executes exactly the first `i+1` commands
(commands after `i` never run), `run_command` terminates the process via
`sys.exit(1)`, and `main` never reaches the bootstrapper step. -/
theorem runCommands_halt_on_failure (pre post : List Int) (c : Int)
    (hpre : ∀ x ∈ pre, x = 0) (hc : c ≠ 0) :
    runCommands (pre ++ c :: post) =
      (pre.length + 1, Except.error (PyErr.systemExit 1)) ∧
    main_reaches_bootstrapper (pre ++ c :: post) = false := by
  have key : runCommands (pre ++ c :: post) =
      (pre.length + 1, Except.error (PyErr.systemExit 1)) := by
    induction pre with
    | nil => simp [runCommands, run_command, hc]
    | cons x t ih =>
        have hx : x = 0 := hpre x (by simp)
        have ht : ∀ y ∈ t, y = 0 := fun y hy => hpre y (by simp [hy])
        simp [runCommands, run_command, hx, ih ht]
  exact ⟨key, by simp [main_reaches_bootstrapper, key]⟩

/-- Witness for C5: six commands, the fourth fails: exactly four execute
(the fifth and sixth do not), and the bootstrapper never runs. -/
theorem runCommands_halt_on_failure_witness :
    runCommands [0, 0, 0, 7, 0, 0] =
      (4, Except.error (PyErr.systemExit 1)) ∧
    main_reaches_bootstrapper [0, 0, 0, 7, 0, 0] = false := by
  have := runCommands_halt_on_failure [0, 0, 0] [0, 0] 7
    (by decide) (by decide)
  simpa using this

/-! ### Claim theorems for the bootstrapper guard (C9) -/

/-- C9: a `jira_id` that is absent or falsy (empty string, `0`, `null`,
empty list/dict, `false`) makes `create_task_folder_and_metadata` exit
with status 1 while the filesystem is completely untouched — no folder
created, no file written. -/
theorem create_task_exits_on_falsy_jira (fs : FS) (p tid : String)
    (tkvs : List (String × Json))
    (hread : fsRead fs p = some (.obj tkvs))
    (hfalsy : optTruthy (dget tkvs "jira_id") = false) :
    create_task_folder_and_metadata fs p tid =
      (fs, .error (.systemExit 1)) := by
  simp [create_task_folder_and_metadata, hread, pyGet, hfalsy]

/-- Witness for C9 with a task-data file whose `jira_id` is the empty
string. -/
theorem create_task_exits_on_falsy_jira_witness :
    fsRead ⟨[], [("task_data.json", Json.obj [("jira_id", Json.str "")])]⟩
        "task_data.json" = some (Json.obj [("jira_id", Json.str "")]) ∧
    create_task_folder_and_metadata
        ⟨[], [("task_data.json", Json.obj [("jira_id", Json.str "")])]⟩
        "task_data.json" "uuid-1" =
      (⟨[], [("task_data.json", Json.obj [("jira_id", Json.str "")])]⟩,
        .error (.systemExit 1)) :=
  ⟨by rfl,
    create_task_exits_on_falsy_jira _ _ _ [("jira_id", Json.str "")]
      (by rfl) (by rfl)⟩

/-! ### Claim theorems for the metadata merge: strictness (C8) -/

/-- C8: an implementation entry whose name maps to a known diff key but
which lacks `task_success`, `instruction_following` or `comment` makes
`update_metadata` raise a `KeyError` (for the first of those keys that is
absent), so the merge aborts and the metadata file is never written back
(an `Except.error` outcome of the merge is precisely the no-write path of
`update_metadata_file`).  Partial tolerance applies only to the
evaluation-summary section. -/
theorem update_metadata_keyerror_on_incomplete_entry
    (md analysis : Json) (akvs : List (String × Json)) (pre post : List Json)
    (ekvs : List (String × Json)) (nm : Json) (dk : String) (md₁ : Json)
    (hak : analysis = .obj akvs)
    (himpl : dget akvs "implementations" =
      some (.arr (pre ++ Json.obj ekvs :: post)))
    (hpre : pre.foldlM applyEntry md = Except.ok md₁)
    (hname : dget ekvs "name" = some nm)
    (_hmap : impl_to_diff nm = .ok (some dk))
    (hmiss : dget ekvs "task_success" = none ∨
      dget ekvs "instruction_following" = none ∨
      dget ekvs "comment" = none) :
    ∃ k, k ∈ ["task_success", "instruction_following", "comment"] ∧
      update_metadata md analysis = .error (.keyError k) := by
  subst hak
  have hentry : ∃ k, k ∈ ["task_success", "instruction_following", "comment"]
      ∧ applyEntry md₁ (Json.obj ekvs) = .error (.keyError k) := by
    cases h1 : dget ekvs "task_success" with
    | none =>
        refine ⟨"task_success", by simp, ?_⟩
        simp [applyEntry, getItem, hname, h1, Except.bind, bind]
    | some ts =>
        cases h2 : dget ekvs "instruction_following" with
        | none =>
            refine ⟨"instruction_following", by simp, ?_⟩
            simp [applyEntry, getItem, hname, h1, h2, Except.bind, bind]
        | some insf =>
            cases h3 : dget ekvs "comment" with
            | none =>
                refine ⟨"comment", by simp, ?_⟩
                simp [applyEntry, getItem, hname, h1, h2, h3, Except.bind,
                  bind]
            | some cm =>
                rcases hmiss with hm | hm | hm <;> simp [h1, h2, h3] at hm
  obtain ⟨k, hk, happ⟩ := hentry
  refine ⟨k, hk, ?_⟩
  have hfold : (pre ++ Json.obj ekvs :: post).foldlM applyEntry md =
      .error (.keyError k) := by
    rw [List.foldlM_append]
    rw [hpre]
    simp [List.foldlM_cons, happ, Except.bind, bind]
  simp [update_metadata, getItem, himpl, iterEntries, hfold, Except.bind,
    bind]

/-- Witness for C8: the complete reduction of `update_metadata` on an
entry naming `impl_2` with no score fields. -/
theorem update_metadata_keyerror_witness :
    ∃ k, k ∈ ["task_success", "instruction_following", "comment"] ∧
      update_metadata (Json.obj [("implementations", Json.arr [])])
        (Json.obj [("implementations",
          Json.arr [Json.obj [("name", Json.str "impl_2")]])]) =
      .error (.keyError k) :=
  update_metadata_keyerror_on_incomplete_entry
    (Json.obj [("implementations", Json.arr [])])
    (Json.obj [("implementations",
      Json.arr [Json.obj [("name", Json.str "impl_2")]])])
    [("implementations", Json.arr [Json.obj [("name", Json.str "impl_2")]])]
    [] [] [("name", Json.str "impl_2")] (Json.str "impl_2") "diff_2"
    (Json.obj [("implementations", Json.arr [])])
    rfl (by rfl) (by rfl) (by rfl) (by rfl) (Or.inl (by rfl))

/-! ### Claim theorems for the evaluation-summary merge (C7) -/

theorem getItem_ok {j : Json} {k : String} {v : Json}
    (h : getItem j k = .ok v) :
    ∃ kvs, j = .obj kvs ∧ dget kvs k = some v := by
  cases j with
  | obj kvs =>
      refine ⟨kvs, rfl, ?_⟩
      simp only [getItem] at h
      cases hd : dget kvs k with
      | none => rw [hd] at h; cases h
      | some x =>
          rw [hd] at h
          simp only [Except.ok.injEq] at h
          rw [h]
  | null => simp only [getItem] at h; cases h
  | bool b => simp only [getItem] at h; cases h
  | num m e => simp only [getItem] at h; cases h
  | nan => simp only [getItem] at h; cases h
  | posInf => simp only [getItem] at h; cases h
  | negInf => simp only [getItem] at h; cases h
  | str s => simp only [getItem] at h; cases h
  | arr xs => simp only [getItem] at h; cases h

theorem setItem_ok {j : Json} {k : String} {v j' : Json}
    (h : setItem j k v = .ok j') :
    ∃ kvs, j = .obj kvs ∧ j' = .obj (dset kvs k v) := by
  cases j with
  | obj kvs =>
      simp only [setItem, Except.ok.injEq] at h
      exact ⟨kvs, rfl, h.symm⟩
  | null => simp only [setItem] at h; cases h
  | bool b => simp only [setItem] at h; cases h
  | num m e => simp only [setItem] at h; cases h
  | nan => simp only [setItem] at h; cases h
  | posInf => simp only [setItem] at h; cases h
  | negInf => simp only [setItem] at h; cases h
  | str s => simp only [setItem] at h; cases h
  | arr xs => simp only [setItem] at h; cases h

theorem applyEvalKey_char (k : String) (md : Json)
    (evkvs : List (String × Json)) (md' : Json)
    (h : applyEvalKey k md (.obj evkvs) = .ok md') :
    (dget evkvs k = none ∧ md' = md) ∨
    (∃ v mkvs ekvs2, dget evkvs k = some v ∧ md = .obj mkvs ∧
      dget mkvs "evaluation" = some (.obj ekvs2) ∧
      md' = .obj (dset mkvs "evaluation" (.obj (dset ekvs2 k v)))) := by
  unfold applyEvalKey at h
  cases hv : dget evkvs k with
  | none =>
      left
      simp only [pyContains, hv, Option.isSome_none, Except.ok.injEq] at h
      exact ⟨rfl, h.symm⟩
  | some v =>
      right
      simp only [pyContains, hv, Option.isSome_some, getItem] at h
      cases md with
      | obj mkvs =>
          simp only at h
          cases he : dget mkvs "evaluation" with
          | none => rw [he] at h; simp at h
          | some ev =>
              rw [he] at h
              cases ev with
              | obj ekvs2 =>
                  simp only [setItem] at h
                  exact ⟨v, mkvs, ekvs2, rfl, rfl, he, by
                    cases h; rfl⟩
              | null => simp [setItem] at h
              | bool b => simp [setItem] at h
              | num m e => simp [setItem] at h
              | nan => simp [setItem] at h
              | posInf => simp [setItem] at h
              | negInf => simp [setItem] at h
              | str s => simp [setItem] at h
              | arr xs => simp [setItem] at h
      | null => simp at h
      | bool b => simp at h
      | num m e => simp at h
      | nan => simp at h
      | posInf => simp at h
      | negInf => simp at h
      | str s => simp at h
      | arr xs => simp at h

theorem jget2_congr_eval (a b : Json) (k : String)
    (h : jget a "evaluation" = jget b "evaluation") :
    jget2 a "evaluation" k = jget2 b "evaluation" k := by
  simp [jget2, h]

theorem applyEvalKey_preserve_ne (k k' : String) (md : Json)
    (evkvs : List (String × Json)) (md' : Json) (hne : k' ≠ k)
    (h : applyEvalKey k md (.obj evkvs) = .ok md') :
    jget2 md' "evaluation" k' = jget2 md "evaluation" k' := by
  rcases applyEvalKey_char k md evkvs md' h with ⟨_, rfl⟩ |
    ⟨v, mkvs, ekvs2, hv, rfl, he, rfl⟩
  · rfl
  · simp only [jget2, jget, dget_dset_self, he, Option.bind_some]
    exact dget_dset_ne ekvs2 k k' v hne

theorem applyEvalKey_sets_self (k : String) (md : Json)
    (evkvs : List (String × Json)) (md' v : Json)
    (hv : dget evkvs k = some v)
    (h : applyEvalKey k md (.obj evkvs) = .ok md') :
    jget2 md' "evaluation" k = some v := by
  rcases applyEvalKey_char k md evkvs md' h with ⟨hn, _⟩ |
    ⟨w, mkvs, ekvs2, hw, rfl, he, rfl⟩
  · rw [hv] at hn; cases hn
  · rw [hv] at hw
    cases hw
    simp only [jget2, jget, dget_dset_self, Option.bind_some]
    exact dget_dset_self ekvs2 k v

theorem applyEvalKey_id_of_absent (k : String) (md : Json)
    (evkvs : List (String × Json)) (md' : Json)
    (hv : dget evkvs k = none)
    (h : applyEvalKey k md (.obj evkvs) = .ok md') : md' = md := by
  rcases applyEvalKey_char k md evkvs md' h with ⟨_, rfl⟩ |
    ⟨v, mkvs, ekvs2, hw, _, _, _⟩
  · rfl
  · rw [hv] at hw; cases hw

theorem applyEntry_eval_preserved (md e md' : Json)
    (h : applyEntry md e = .ok md') :
    jget md' "evaluation" = jget md "evaluation" := by
  unfold applyEntry at h
  cases h1 : getItem e "name" with
  | error er => rw [h1] at h; cases h
  | ok name =>
  rw [h1] at h
  simp only [] at h
  cases h2 : getItem e "task_success" with
  | error er => rw [h2] at h; cases h
  | ok ts =>
  rw [h2] at h
  simp only [] at h
  cases h3 : getItem e "instruction_following" with
  | error er => rw [h3] at h; cases h
  | ok insf =>
  rw [h3] at h
  simp only [] at h
  cases h4 : getItem e "comment" with
  | error er => rw [h4] at h; cases h
  | ok cm =>
  rw [h4] at h
  simp only [] at h
  cases h5 : impl_to_diff name with
  | error er => rw [h5] at h; cases h
  | ok odk =>
  rw [h5] at h
  cases odk with
  | none => cases h; rfl
  | some dk =>
  simp only [] at h
  cases h6 : getItem md "implementations" with
  | error er => rw [h6] at h; cases h
  | ok impls =>
  rw [h6] at h
  obtain ⟨mkvs, rfl, hd⟩ := getItem_ok h6
  cases impls with
  | arr slots =>
      simp only [] at h
      cases h7 : updateFirstSlot dk ts insf cm slots with
      | error er => rw [h7] at h; cases h
      | ok slots' =>
          rw [h7] at h
          simp only [setItem, Except.ok.injEq] at h
          subst h
          simp only [jget]
          exact dget_dset_ne mkvs "implementations" "evaluation" _ (by decide)
  | obj okvs =>
      simp only [] at h
      by_cases h8 : okvs.any fun kv => isSubList dk.data kv.1.data
      · rw [if_pos h8] at h; cases h
      · rw [if_neg h8] at h; cases h; rfl
  | str s =>
      simp only [] at h
      by_cases h8 : s.data.any fun c => isSubList dk.data [c]
      · rw [if_pos h8] at h; cases h
      · rw [if_neg h8] at h; cases h; rfl
  | null => cases h
  | bool b => cases h
  | num m ex => cases h
  | nan => cases h
  | posInf => cases h
  | negInf => cases h

theorem foldlM_applyEntry_eval_preserved (es : List Json) (md md' : Json)
    (h : es.foldlM applyEntry md = .ok md') :
    jget md' "evaluation" = jget md "evaluation" := by
  induction es generalizing md with
  | nil => cases h; rfl
  | cons e t ih =>
      rw [List.foldlM_cons] at h
      cases ha : applyEntry md e with
      | error _ => rw [ha] at h; simp [Except.bind, bind] at h
      | ok mdm =>
          rw [ha] at h
          simp only [bind, Except.bind] at h
          exact (ih mdm h).trans (applyEntry_eval_preserved md e mdm ha)

theorem iterEntries_eval_preserved (entriesJ md md' : Json)
    (h : iterEntries entriesJ md = .ok md') :
    jget md' "evaluation" = jget md "evaluation" := by
  unfold iterEntries at h
  cases entriesJ with
  | arr es => exact foldlM_applyEntry_eval_preserved es md md' h
  | obj kvs => exact foldlM_applyEntry_eval_preserved _ md md' h
  | str s => exact foldlM_applyEntry_eval_preserved _ md md' h
  | null => cases h
  | bool b => cases h
  | num m e => cases h
  | nan => cases h
  | posInf => cases h
  | negInf => cases h

theorem update_metadata_eval_decomp (md analysis md' : Json)
    (h : update_metadata md analysis = .ok md') :
    ∃ md₁, jget md₁ "evaluation" = jget md "evaluation" ∧
      ((jget analysis "evaluation" = none ∧ md' = md₁) ∨
       (∃ aev m₂ m₃, jget analysis "evaluation" = some aev ∧
         applyEvalKey "best_diff" md₁ aev = .ok m₂ ∧
         applyEvalKey "preference_rationale" m₂ aev = .ok m₃ ∧
         applyEvalKey "improved_diff" m₃ aev = .ok md')) := by
  unfold update_metadata at h
  cases h1 : getItem analysis "implementations" with
  | error er => rw [h1] at h; cases h
  | ok entriesJ =>
  rw [h1] at h
  simp only [] at h
  cases h2 : iterEntries entriesJ md with
  | error er => rw [h2] at h; cases h
  | ok md₁ =>
  rw [h2] at h
  simp only [] at h
  refine ⟨md₁, iterEntries_eval_preserved entriesJ md md₁ h2, ?_⟩
  cases h3 : jget analysis "evaluation" with
  | none => rw [h3] at h; cases h; exact Or.inl ⟨rfl, rfl⟩
  | some aev =>
  rw [h3] at h
  simp only [] at h
  cases h4 : applyEvalKey "best_diff" md₁ aev with
  | error er => rw [h4] at h; cases h
  | ok m₂ =>
  rw [h4] at h
  simp only [] at h
  cases h5 : applyEvalKey "preference_rationale" m₂ aev with
  | error er => rw [h5] at h; cases h
  | ok m₃ =>
  rw [h5] at h
  simp only [] at h
  exact Or.inr ⟨aev, m₂, m₃, rfl, h4, h5, h⟩

/-- C7: the evaluation section is merged key-by-key.  When the result's
`evaluation` object is present, each of `best_diff`,
`preference_rationale`, `improved_diff` is overwritten in the metadata's
evaluation section exactly when that key is present in the result's
evaluation object, and left at its previous value when absent; when the
result has no `evaluation` key, the metadata's evaluation section is
untouched. -/
theorem update_metadata_eval_keywise (md analysis md' : Json)
    (h : update_metadata md analysis = .ok md') :
    (∀ evkvs, jget analysis "evaluation" = some (.obj evkvs) →
      ∀ k, k ∈ ["best_diff", "preference_rationale", "improved_diff"] →
        (∀ v, dget evkvs k = some v → jget2 md' "evaluation" k = some v) ∧
        (dget evkvs k = none →
          jget2 md' "evaluation" k = jget2 md "evaluation" k)) ∧
    (jget analysis "evaluation" = none →
      jget md' "evaluation" = jget md "evaluation") := by
  obtain ⟨md₁, hpres, hrest⟩ := update_metadata_eval_decomp md analysis md' h
  constructor
  · intro evkvs hev k hk
    rcases hrest with ⟨hnone, _⟩ | ⟨aev, m₂, m₃, hsome, h4, h5, h6⟩
    · rw [hnone] at hev; cases hev
    · rw [hsome] at hev
      injection hev with hev
      subst hev
      have hb : ("best_diff" : String) ≠ "preference_rationale" := by decide
      have hb2 : ("best_diff" : String) ≠ "improved_diff" := by decide
      have hp2 : ("preference_rationale" : String) ≠ "improved_diff" := by
        decide
      simp only [List.mem_cons, List.not_mem_nil, or_false] at hk
      rcases hk with hk | hk | hk
      · subst hk
        constructor
        · intro v hv
          rw [applyEvalKey_preserve_ne "improved_diff" "best_diff" m₃ evkvs
            md' (by decide) h6]
          rw [applyEvalKey_preserve_ne "preference_rationale" "best_diff"
            m₂ evkvs m₃ (by decide) h5]
          exact applyEvalKey_sets_self "best_diff" md₁ evkvs m₂ v hv h4
        · intro hv
          have e2 : m₂ = md₁ :=
            applyEvalKey_id_of_absent "best_diff" md₁ evkvs m₂ hv h4
          rw [applyEvalKey_preserve_ne "improved_diff" "best_diff" m₃ evkvs
            md' (by decide) h6]
          rw [applyEvalKey_preserve_ne "preference_rationale" "best_diff"
            m₂ evkvs m₃ (by decide) h5]
          rw [e2]
          exact jget2_congr_eval md₁ md "best_diff" hpres
      · subst hk
        constructor
        · intro v hv
          rw [applyEvalKey_preserve_ne "improved_diff" "preference_rationale"
            m₃ evkvs md' (by decide) h6]
          exact applyEvalKey_sets_self "preference_rationale" m₂ evkvs m₃ v
            hv h5
        · intro hv
          have e3 : m₃ = m₂ :=
            applyEvalKey_id_of_absent "preference_rationale" m₂ evkvs m₃ hv h5
          rw [applyEvalKey_preserve_ne "improved_diff" "preference_rationale"
            m₃ evkvs md' (by decide) h6]
          rw [e3]
          rw [applyEvalKey_preserve_ne "best_diff" "preference_rationale"
            md₁ evkvs m₂ (by decide) h4]
          exact jget2_congr_eval md₁ md "preference_rationale" hpres
      · subst hk
        constructor
        · intro v hv
          exact applyEvalKey_sets_self "improved_diff" m₃ evkvs md' v hv h6
        · intro hv
          have e4 : md' = m₃ :=
            applyEvalKey_id_of_absent "improved_diff" m₃ evkvs md' hv h6
          rw [e4]
          rw [applyEvalKey_preserve_ne "preference_rationale" "improved_diff"
            m₂ evkvs m₃ (by decide) h5]
          rw [applyEvalKey_preserve_ne "best_diff" "improved_diff"
            md₁ evkvs m₂ (by decide) h4]
          exact jget2_congr_eval md₁ md "improved_diff" hpres
  · intro hnone
    rcases hrest with ⟨_, rfl⟩ | ⟨aev, m₂, m₃, hsome, _, _, _⟩
    · exact hpres
    · rw [hnone] at hsome; cases hsome

/-- Witness for C7: a partial evaluation result carrying only `best_diff`
overwrites `best_diff` and leaves `preference_rationale` and
`improved_diff` at their previous values. -/
theorem update_metadata_eval_keywise_witness :
    update_metadata
        (Json.obj [("evaluation", Json.obj [("best_diff", Json.num 1 0),
          ("preference_rationale", Json.str "old"),
          ("improved_diff", Json.str "d")])])
        (Json.obj [("implementations", Json.arr []),
          ("evaluation", Json.obj [("best_diff", Json.num 7 0)])]) =
      .ok (Json.obj [("evaluation", Json.obj [("best_diff", Json.num 7 0),
        ("preference_rationale", Json.str "old"),
        ("improved_diff", Json.str "d")])]) ∧
    jget2 (Json.obj [("evaluation", Json.obj [("best_diff", Json.num 7 0),
        ("preference_rationale", Json.str "old"),
        ("improved_diff", Json.str "d")])]) "evaluation" "best_diff" =
      some (Json.num 7 0) ∧
    jget2 (Json.obj [("evaluation", Json.obj [("best_diff", Json.num 7 0),
        ("preference_rationale", Json.str "old"),
        ("improved_diff", Json.str "d")])]) "evaluation"
        "preference_rationale" =
      jget2 (Json.obj [("evaluation", Json.obj [("best_diff", Json.num 1 0),
        ("preference_rationale", Json.str "old"),
        ("improved_diff", Json.str "d")])]) "evaluation"
        "preference_rationale" :=
  ⟨by rfl,
    (((update_metadata_eval_keywise
      (Json.obj [("evaluation", Json.obj [("best_diff", Json.num 1 0),
        ("preference_rationale", Json.str "old"),
        ("improved_diff", Json.str "d")])])
      (Json.obj [("implementations", Json.arr []),
        ("evaluation", Json.obj [("best_diff", Json.num 7 0)])])
      (Json.obj [("evaluation", Json.obj [("best_diff", Json.num 7 0),
        ("preference_rationale", Json.str "old"),
        ("improved_diff", Json.str "d")])])
      (by rfl)).1
      [("best_diff", Json.num 7 0)] (by rfl) "best_diff" (by simp)).1
      (Json.num 7 0) (by rfl)),
    (((update_metadata_eval_keywise
      (Json.obj [("evaluation", Json.obj [("best_diff", Json.num 1 0),
        ("preference_rationale", Json.str "old"),
        ("improved_diff", Json.str "d")])])
      (Json.obj [("implementations", Json.arr []),
        ("evaluation", Json.obj [("best_diff", Json.num 7 0)])])
      (Json.obj [("evaluation", Json.obj [("best_diff", Json.num 7 0),
        ("preference_rationale", Json.str "old"),
        ("improved_diff", Json.str "d")])])
      (by rfl)).1
      [("best_diff", Json.num 7 0)] (by rfl) "preference_rationale"
      (by simp)).2 (by rfl))⟩

theorem slotFrame_refl (j : Json) : slotFrame j j := Or.inl rfl

theorem slotFrame_trans {a b c : Json} (h1 : slotFrame a b)
    (h2 : slotFrame b c) : slotFrame a c := by
  rcases h1 with rfl | ⟨okvs, nkvs, rfl, rfl, hf⟩
  · exact h2
  · rcases h2 with rfl | ⟨okvs2, nkvs2, he, rfl, hf2⟩
    · exact Or.inr ⟨okvs, nkvs, rfl, rfl, hf⟩
    · injection he with he
      subst he
      exact Or.inr ⟨okvs, nkvs2, rfl, rfl,
        fun k hk => (hf2 k hk).trans (hf k hk)⟩

theorem implsFrame_trans {a b c : Option Json} (h1 : implsFrame a b)
    (h2 : implsFrame b c) : implsFrame a c := by
  rcases h1 with rfl | ⟨x, y, rfl, rfl, hl, hf⟩
  · exact h2
  · rcases h2 with rfl | ⟨x2, y2, he, rfl, hl2, hf2⟩
    · exact Or.inr ⟨x, y, rfl, rfl, hl, hf⟩
    · injection he with he
      injection he with he
      subst he
      exact Or.inr ⟨x, y2, rfl, rfl, hl.trans hl2,
        fun i hi => slotFrame_trans (hf i hi) (hf2 i (hl ▸ hi))⟩

theorem evalObjFrame_trans {a b c : Option Json} (h1 : evalObjFrame a b)
    (h2 : evalObjFrame b c) : evalObjFrame a c := by
  rcases h1 with rfl | ⟨x, y, rfl, rfl, hf⟩
  · exact h2
  · rcases h2 with rfl | ⟨x2, y2, he, rfl, hf2⟩
    · exact Or.inr ⟨x, y, rfl, rfl, hf⟩
    · injection he with he
      injection he with he
      subst he
      exact Or.inr ⟨x, y2, rfl, rfl,
        fun k hk => (hf2 k hk).trans (hf k hk)⟩

theorem mdFrame_refl (j : Json) : mdFrame j j :=
  ⟨fun _ _ _ => rfl, Or.inl rfl, Or.inl rfl⟩

theorem mdFrame_trans {a b c : Json} (h1 : mdFrame a b) (h2 : mdFrame b c) :
    mdFrame a c :=
  ⟨fun k hk1 hk2 => (h2.1 k hk1 hk2).trans (h1.1 k hk1 hk2),
    implsFrame_trans h1.2.1 h2.2.1, evalObjFrame_trans h1.2.2 h2.2.2⟩

theorem dget_setScores_ne (kvs : List (String × Json)) (ts insf cm : Json)
    (k : String) (hk : k ∉ scoreKeys) :
    dget (setScores kvs ts insf cm) k = dget kvs k := by
  simp only [scoreKeys, List.mem_cons, List.not_mem_nil, or_false,
    not_or] at hk
  obtain ⟨h1, h2, h3⟩ := hk
  unfold setScores
  rw [dget_dset_ne _ _ _ _ h3, dget_dset_ne _ _ _ _ h2,
    dget_dset_ne _ _ _ _ h1]

theorem updateFirstSlot_frame (dk : String) (ts insf cm : Json)
    (slots slots' : List Json)
    (h : updateFirstSlot dk ts insf cm slots = .ok slots') :
    slots'.length = slots.length ∧
    ∀ i, i < slots.length →
      slotFrame (slots.getD i .null) (slots'.getD i .null) := by
  induction slots generalizing slots' with
  | nil =>
      cases h
      exact ⟨rfl, fun i hi => absurd hi (by simp)⟩
  | cons slot rest ih =>
      unfold updateFirstSlot at h
      cases hc : pyContains slot dk with
      | error er => rw [hc] at h; cases h
      | ok b =>
      rw [hc] at h
      cases b with
      | true =>
          simp only [] at h
          cases slot with
          | obj kvs =>
              simp only [updateSlotHit, Except.ok.injEq] at h
              subst h
              refine ⟨by simp, fun i hi => ?_⟩
              cases i with
              | zero =>
                  exact Or.inr ⟨kvs, setScores kvs ts insf cm, rfl, rfl,
                    fun k hk => dget_setScores_ne kvs ts insf cm k hk⟩
              | succ n => exact slotFrame_refl _
          | null => cases h
          | bool b2 => cases h
          | num m e => cases h
          | nan => cases h
          | posInf => cases h
          | negInf => cases h
          | str s => cases h
          | arr xs => cases h
      | false =>
          simp only [] at h
          cases hr : updateFirstSlot dk ts insf cm rest with
          | error er => rw [hr] at h; cases h
          | ok rest' =>
              rw [hr] at h
              simp only [updateSlotMiss, Except.ok.injEq] at h
              subst h
              obtain ⟨hl, hf⟩ := ih rest' hr
              refine ⟨by simp [hl], fun i hi => ?_⟩
              cases i with
              | zero => exact slotFrame_refl _
              | succ n =>
                  exact hf n (by simpa using hi)

theorem applyEntry_frame (md e md' : Json) (h : applyEntry md e = .ok md') :
    mdFrame md md' := by
  unfold applyEntry at h
  cases h1 : getItem e "name" with
  | error er => rw [h1] at h; cases h
  | ok name =>
  rw [h1] at h
  simp only [] at h
  cases h2 : getItem e "task_success" with
  | error er => rw [h2] at h; cases h
  | ok ts =>
  rw [h2] at h
  simp only [] at h
  cases h3 : getItem e "instruction_following" with
  | error er => rw [h3] at h; cases h
  | ok insf =>
  rw [h3] at h
  simp only [] at h
  cases h4 : getItem e "comment" with
  | error er => rw [h4] at h; cases h
  | ok cm =>
  rw [h4] at h
  simp only [] at h
  cases h5 : impl_to_diff name with
  | error er => rw [h5] at h; cases h
  | ok odk =>
  rw [h5] at h
  cases odk with
  | none => cases h; exact mdFrame_refl md
  | some dk =>
  simp only [] at h
  cases h6 : getItem md "implementations" with
  | error er => rw [h6] at h; cases h
  | ok impls =>
  rw [h6] at h
  obtain ⟨mkvs, rfl, hd⟩ := getItem_ok h6
  cases impls with
  | arr slots =>
      simp only [] at h
      cases h7 : updateFirstSlot dk ts insf cm slots with
      | error er => rw [h7] at h; cases h
      | ok slots' =>
          rw [h7] at h
          simp only [setItem, Except.ok.injEq] at h
          subst h
          obtain ⟨hl, hf⟩ := updateFirstSlot_frame dk ts insf cm slots
            slots' h7
          refine ⟨?_, ?_, ?_⟩
          · intro k hk1 _
            simp only [jget]
            exact dget_dset_ne mkvs "implementations" k _ hk1
          · refine Or.inr ⟨slots, slots', ?_, ?_, hl.symm, hf⟩
            · simp only [jget, hd]
            · simp only [jget]
              rw [dget_dset_self]
          · apply Or.inl
            simp only [jget]
            exact dget_dset_ne mkvs "implementations" "evaluation" _
              (by decide)
  | obj okvs =>
      simp only [] at h
      by_cases h8 : okvs.any fun kv => isSubList dk.data kv.1.data
      · rw [if_pos h8] at h; cases h
      · rw [if_neg h8] at h; cases h; exact mdFrame_refl _
  | str s =>
      simp only [] at h
      by_cases h8 : s.data.any fun c => isSubList dk.data [c]
      · rw [if_pos h8] at h; cases h
      · rw [if_neg h8] at h; cases h; exact mdFrame_refl _
  | null => cases h
  | bool b => cases h
  | num m ex => cases h
  | nan => cases h
  | posInf => cases h
  | negInf => cases h

theorem foldlM_applyEntry_frame (es : List Json) (md md' : Json)
    (h : es.foldlM applyEntry md = .ok md') : mdFrame md md' := by
  induction es generalizing md with
  | nil => cases h; exact mdFrame_refl _
  | cons e t ih =>
      rw [List.foldlM_cons] at h
      cases ha : applyEntry md e with
      | error er => rw [ha] at h; simp [Except.bind, bind] at h
      | ok mdm =>
          rw [ha] at h
          simp only [bind, Except.bind] at h
          exact mdFrame_trans (applyEntry_frame md e mdm ha) (ih mdm h)

theorem iterEntries_frame (entriesJ md md' : Json)
    (h : iterEntries entriesJ md = .ok md') : mdFrame md md' := by
  unfold iterEntries at h
  cases entriesJ with
  | arr es => exact foldlM_applyEntry_frame es md md' h
  | obj kvs => exact foldlM_applyEntry_frame _ md md' h
  | str s => exact foldlM_applyEntry_frame _ md md' h
  | null => cases h
  | bool b => cases h
  | num m e => cases h
  | nan => cases h
  | posInf => cases h
  | negInf => cases h

theorem applyEvalKey_frame (k : String) (md aev md' : Json)
    (hk : k ∈ evalKeys) (h : applyEvalKey k md aev = .ok md') :
    mdFrame md md' := by
  cases aev with
  | obj evkvs =>
      rcases applyEvalKey_char k md evkvs md' h with ⟨_, rfl⟩ |
        ⟨v, mkvs, ekvs2, hv, rfl, he, rfl⟩
      · exact mdFrame_refl _
      · refine ⟨?_, ?_, ?_⟩
        · intro k' _ hk2
          simp only [jget]
          exact dget_dset_ne mkvs "evaluation" k' _ hk2
        · apply Or.inl
          simp only [jget]
          exact dget_dset_ne mkvs "evaluation" "implementations" _
            (by decide)
        · refine Or.inr ⟨ekvs2, dset ekvs2 k v, ?_, ?_, ?_⟩
          · simp only [jget, he]
          · simp only [jget]
            rw [dget_dset_self]
          · intro k' hk'
            refine dget_dset_ne ekvs2 k k' v ?_
            intro hkk
            exact hk' (hkk ▸ hk)
  | arr xs =>
      unfold applyEvalKey at h
      cases hb : pyContains (Json.arr xs) k with
      | error er => rw [hb] at h; cases h
      | ok b =>
          rw [hb] at h
          cases b
          · cases h; exact mdFrame_refl _
          · cases h
  | str s =>
      unfold applyEvalKey at h
      cases hb : pyContains (Json.str s) k with
      | error er => rw [hb] at h; cases h
      | ok b =>
          rw [hb] at h
          cases b
          · cases h; exact mdFrame_refl _
          · cases h
  | null => unfold applyEvalKey at h; cases h
  | bool b => unfold applyEvalKey at h; cases h
  | num m e => unfold applyEvalKey at h; cases h
  | nan => unfold applyEvalKey at h; cases h
  | posInf => unfold applyEvalKey at h; cases h
  | negInf => unfold applyEvalKey at h; cases h

/-- C1: `update_metadata` changes only the `task_success`,
`instruction_following` and `comment` fields of the implementation slots
and the `best_diff`, `preference_rationale`, `improved_diff` fields of the
evaluation section: every other top-level field of the metadata record —
in particular `task_id`, `jira` and the nested `task_details` — is equal
before and after the merge, the implementations array keeps its length and
order with each slot unchanged outside the three score fields, and the
evaluation object is unchanged outside its three summary fields. -/
theorem update_metadata_frame (md res md' : Json)
    (h : update_metadata md res = .ok md') :
    (∀ k, k ≠ "implementations" → k ≠ "evaluation" →
      jget md' k = jget md k) ∧
    jget md' "task_id" = jget md "task_id" ∧
    jget md' "jira" = jget md "jira" ∧
    jget md' "task_details" = jget md "task_details" ∧
    implsFrame (jget md "implementations") (jget md' "implementations") ∧
    evalObjFrame (jget md "evaluation") (jget md' "evaluation") := by
  have hframe : mdFrame md md' := by
    unfold update_metadata at h
    cases h1 : getItem res "implementations" with
    | error er => rw [h1] at h; cases h
    | ok entriesJ =>
    rw [h1] at h
    simp only [] at h
    cases h2 : iterEntries entriesJ md with
    | error er => rw [h2] at h; cases h
    | ok md₁ =>
    rw [h2] at h
    simp only [] at h
    have hf1 : mdFrame md md₁ := iterEntries_frame entriesJ md md₁ h2
    cases h3 : jget res "evaluation" with
    | none => rw [h3] at h; cases h; exact hf1
    | some aev =>
    rw [h3] at h
    simp only [] at h
    cases h4 : applyEvalKey "best_diff" md₁ aev with
    | error er => rw [h4] at h; cases h
    | ok m₂ =>
    rw [h4] at h
    simp only [] at h
    cases h5 : applyEvalKey "preference_rationale" m₂ aev with
    | error er => rw [h5] at h; cases h
    | ok m₃ =>
    rw [h5] at h
    simp only [] at h
    exact mdFrame_trans hf1 (mdFrame_trans
      (applyEvalKey_frame "best_diff" md₁ aev m₂ (by simp [evalKeys]) h4)
      (mdFrame_trans
        (applyEvalKey_frame "preference_rationale" m₂ aev m₃
          (by simp [evalKeys]) h5)
        (applyEvalKey_frame "improved_diff" m₃ aev md'
          (by simp [evalKeys]) h)))
  exact ⟨hframe.1,
    hframe.1 "task_id" (by decide) (by decide),
    hframe.1 "jira" (by decide) (by decide),
    hframe.1 "task_details" (by decide) (by decide),
    hframe.2.1, hframe.2.2⟩

/-- Witness for C1: merging a result that scores `impl_2` and selects
`best_diff = 2` into a populated metadata record leaves `task_id`, `jira`,
`task_details`, the untouched slot, the slot's `diff_2` key and the
evaluation's extra field all unchanged. -/
theorem update_metadata_frame_witness :
    update_metadata
      (Json.obj [("task_id", Json.str "t-0"), ("jira", Json.str "J-1"),
        ("task_details", Json.obj [("repo_name", Json.str "r")]),
        ("implementations", Json.arr [
          Json.obj [("diff_1", Json.str "d1")],
          Json.obj [("diff_2", Json.str "d2")]]),
        ("evaluation", Json.obj [("best_diff", Json.num 0 0),
          ("preference_rationale", Json.str ""),
          ("improved_diff", Json.str ""), ("extra", Json.str "keep")])])
      (Json.obj [("implementations", Json.arr [
          Json.obj [("name", Json.str "impl_2"),
            ("task_success", Json.num 5 0),
            ("instruction_following", Json.num 4 0),
            ("comment", Json.str "ok")]]),
        ("evaluation", Json.obj [("best_diff", Json.num 2 0)])]) =
      .ok (Json.obj [("task_id", Json.str "t-0"), ("jira", Json.str "J-1"),
        ("task_details", Json.obj [("repo_name", Json.str "r")]),
        ("implementations", Json.arr [
          Json.obj [("diff_1", Json.str "d1")],
          Json.obj [("diff_2", Json.str "d2"),
            ("task_success", Json.num 5 0),
            ("instruction_following", Json.num 4 0),
            ("comment", Json.str "ok")]]),
        ("evaluation", Json.obj [("best_diff", Json.num 2 0),
          ("preference_rationale", Json.str ""),
          ("improved_diff", Json.str ""), ("extra", Json.str "keep")])]) ∧
    ((∀ k, k ≠ "implementations" → k ≠ "evaluation" →
      jget (Json.obj [("task_id", Json.str "t-0"), ("jira", Json.str "J-1"),
        ("task_details", Json.obj [("repo_name", Json.str "r")]),
        ("implementations", Json.arr [
          Json.obj [("diff_1", Json.str "d1")],
          Json.obj [("diff_2", Json.str "d2"),
            ("task_success", Json.num 5 0),
            ("instruction_following", Json.num 4 0),
            ("comment", Json.str "ok")]]),
        ("evaluation", Json.obj [("best_diff", Json.num 2 0),
          ("preference_rationale", Json.str ""),
          ("improved_diff", Json.str ""), ("extra", Json.str "keep")])]) k =
      jget (Json.obj [("task_id", Json.str "t-0"), ("jira", Json.str "J-1"),
        ("task_details", Json.obj [("repo_name", Json.str "r")]),
        ("implementations", Json.arr [
          Json.obj [("diff_1", Json.str "d1")],
          Json.obj [("diff_2", Json.str "d2")]]),
        ("evaluation", Json.obj [("best_diff", Json.num 0 0),
          ("preference_rationale", Json.str ""),
          ("improved_diff", Json.str ""),
          ("extra", Json.str "keep")])]) k) ∧
    implsFrame
      (jget (Json.obj [("task_id", Json.str "t-0"), ("jira", Json.str "J-1"),
        ("task_details", Json.obj [("repo_name", Json.str "r")]),
        ("implementations", Json.arr [
          Json.obj [("diff_1", Json.str "d1")],
          Json.obj [("diff_2", Json.str "d2")]]),
        ("evaluation", Json.obj [("best_diff", Json.num 0 0),
          ("preference_rationale", Json.str ""),
          ("improved_diff", Json.str ""),
          ("extra", Json.str "keep")])]) "implementations")
      (jget (Json.obj [("task_id", Json.str "t-0"), ("jira", Json.str "J-1"),
        ("task_details", Json.obj [("repo_name", Json.str "r")]),
        ("implementations", Json.arr [
          Json.obj [("diff_1", Json.str "d1")],
          Json.obj [("diff_2", Json.str "d2"),
            ("task_success", Json.num 5 0),
            ("instruction_following", Json.num 4 0),
            ("comment", Json.str "ok")]]),
        ("evaluation", Json.obj [("best_diff", Json.num 2 0),
          ("preference_rationale", Json.str ""),
          ("improved_diff", Json.str ""),
          ("extra", Json.str "keep")])]) "implementations")) :=
  have happ := update_metadata_frame
    (Json.obj [("task_id", Json.str "t-0"), ("jira", Json.str "J-1"),
      ("task_details", Json.obj [("repo_name", Json.str "r")]),
      ("implementations", Json.arr [
        Json.obj [("diff_1", Json.str "d1")],
        Json.obj [("diff_2", Json.str "d2")]]),
      ("evaluation", Json.obj [("best_diff", Json.num 0 0),
        ("preference_rationale", Json.str ""),
        ("improved_diff", Json.str ""), ("extra", Json.str "keep")])])
    (Json.obj [("implementations", Json.arr [
        Json.obj [("name", Json.str "impl_2"),
          ("task_success", Json.num 5 0),
          ("instruction_following", Json.num 4 0),
          ("comment", Json.str "ok")]]),
      ("evaluation", Json.obj [("best_diff", Json.num 2 0)])])
    (Json.obj [("task_id", Json.str "t-0"), ("jira", Json.str "J-1"),
      ("task_details", Json.obj [("repo_name", Json.str "r")]),
      ("implementations", Json.arr [
        Json.obj [("diff_1", Json.str "d1")],
        Json.obj [("diff_2", Json.str "d2"),
          ("task_success", Json.num 5 0),
          ("instruction_following", Json.num 4 0),
          ("comment", Json.str "ok")]]),
      ("evaluation", Json.obj [("best_diff", Json.num 2 0),
        ("preference_rationale", Json.str ""),
        ("improved_diff", Json.str ""), ("extra", Json.str "keep")])])
    (by rfl)
  ⟨by rfl, happ.1, happ.2.2.2.2.1⟩

theorem getD_set_ne {α : Type} (l : List α) (j i : Nat) (u d : α)
    (h : i ≠ j) : (l.set j u).getD i d = l.getD i d := by
  induction l generalizing i j with
  | nil => simp [List.set]
  | cons x t ih =>
      cases j with
      | zero =>
          cases i with
          | zero => exact absurd rfl h
          | succ n => simp
      | succ m =>
          cases i with
          | zero => simp
          | succ n =>
              simp only [List.set_cons_succ, List.getD_cons_succ]
              exact ih m n fun hh => h (by rw [hh])

theorem getD_set_self {α : Type} (l : List α) (j : Nat) (u d : α)
    (h : j < l.length) : (l.set j u).getD j d = u := by
  induction l generalizing j with
  | nil => simp at h
  | cons x t ih =>
      cases j with
      | zero => simp
      | succ m =>
          simp only [List.set_cons_succ, List.getD_cons_succ]
          exact ih m (by simpa using h)

theorem pyContains_setScores (kvs : List (String × Json)) (ts insf cm : Json)
    (k : String) (hk : k ∉ scoreKeys) :
    pyContains (.obj (setScores kvs ts insf cm)) k = pyContains (.obj kvs) k := by
  simp [pyContains, dget_setScores_ne kvs ts insf cm k hk]

/-- The scan hits exactly the (unique) slot whose dict carries the diff
key, replacing it with the score-updated dict and leaving every other
slot untouched. -/
theorem updateFirstSlot_at (dk : String) (ts insf cm : Json)
    (slots : List Json) (j : Nat) (kvs : List (String × Json))
    (hj : j < slots.length)
    (hbefore : ∀ i, i < j → pyContains (slots.getD i .null) dk = .ok false)
    (hat : slots.getD j .null = .obj kvs)
    (hcont : (dget kvs dk).isSome = true) :
    updateFirstSlot dk ts insf cm slots =
      .ok (slots.set j (.obj (setScores kvs ts insf cm))) := by
  induction slots generalizing j with
  | nil => simp at hj
  | cons slot rest ih =>
      cases j with
      | zero =>
          simp only [List.getD_cons_zero] at hat
          subst hat
          unfold updateFirstSlot
          simp only [pyContains, hcont, updateSlotHit]
          rfl
      | succ m =>
          have h0 : pyContains slot dk = .ok false := by
            have := hbefore 0 (Nat.succ_pos m)
            simpa using this
          unfold updateFirstSlot
          rw [h0]
          rw [ih m (by simpa using hj)
            (fun i hi => by
              have := hbefore (i + 1) (by omega)
              simpa using this)
            (by simpa using hat) ]
          simp [updateSlotMiss]

/-- When no slot carries the diff key, the scan leaves the list exactly
as it was. -/
theorem updateFirstSlot_id (dk : String) (ts insf cm : Json)
    (slots : List Json)
    (hnone : ∀ i, i < slots.length →
      pyContains (slots.getD i .null) dk = .ok false) :
    updateFirstSlot dk ts insf cm slots = .ok slots := by
  induction slots with
  | nil => rfl
  | cons slot rest ih =>
      have h0 : pyContains slot dk = .ok false := by
        have := hnone 0 (by simp)
        simpa using this
      unfold updateFirstSlot
      rw [h0]
      rw [ih fun i hi => by
        have := hnone (i + 1) (by simpa using Nat.succ_lt_succ hi)
        simpa using this]
      simp [updateSlotMiss]

theorem dset_dset_same {α : Type} (l : List (String × α)) (k : String)
    (v₁ v₂ : α) : dset (dset l k v₁) k v₂ = dset l k v₂ := by
  induction l with
  | nil => simp [dset]
  | cons kv rest ih =>
      obtain ⟨k1, w⟩ := kv
      by_cases hk : k1 = k
      · simp [dset, hk]
      · simp [dset, hk, ih]

/-- `applyEntry` on a complete entry whose name maps to diff key `dk`:
it rewrites exactly the first `dk`-carrying slot. -/
theorem applyEntry_targets (mkvs : List (String × Json)) (slots : List Json)
    (ekvs : List (String × Json)) (nm : Json) (dk : String)
    (ts insf cm : Json) (j : Nat) (kvs : List (String × Json))
    (hi : dget mkvs "implementations" = some (.arr slots))
    (hn : dget ekvs "name" = some nm)
    (hts : dget ekvs "task_success" = some ts)
    (hin : dget ekvs "instruction_following" = some insf)
    (hcm : dget ekvs "comment" = some cm)
    (hmap : impl_to_diff nm = .ok (some dk))
    (hj : j < slots.length)
    (hbefore : ∀ i, i < j → pyContains (slots.getD i .null) dk = .ok false)
    (hat : slots.getD j .null = .obj kvs)
    (hcont : (dget kvs dk).isSome = true) :
    applyEntry (.obj mkvs) (.obj ekvs) =
      .ok (.obj (dset mkvs "implementations"
        (.arr (slots.set j (.obj (setScores kvs ts insf cm)))))) := by
  unfold applyEntry
  simp only [getItem, hn, hts, hin, hcm, hmap, hi]
  rw [updateFirstSlot_at dk ts insf cm slots j kvs hj hbefore hat hcont]
  rfl

/-- `applyEntry` on a complete entry whose name maps to no diff key:
`continue`, metadata untouched. -/
theorem applyEntry_unmapped (md : Json) (ekvs : List (String × Json))
    (nm ts insf cm : Json)
    (hn : dget ekvs "name" = some nm)
    (hts : dget ekvs "task_success" = some ts)
    (hin : dget ekvs "instruction_following" = some insf)
    (hcm : dget ekvs "comment" = some cm)
    (hmap : impl_to_diff nm = .ok none) :
    applyEntry md (.obj ekvs) = .ok md := by
  unfold applyEntry
  simp only [getItem, hn, hts, hin, hcm, hmap]

/-- `applyEntry` on a complete entry whose diff key occurs in no slot:
the scan finds nothing, and writing the unchanged list back leaves the
metadata value exactly as it was. -/
theorem applyEntry_nocontain (mkvs : List (String × Json))
    (slots : List Json) (ekvs : List (String × Json))
    (nm ts insf cm : Json) (dk : String)
    (hi : dget mkvs "implementations" = some (.arr slots))
    (hn : dget ekvs "name" = some nm)
    (hts : dget ekvs "task_success" = some ts)
    (hin : dget ekvs "instruction_following" = some insf)
    (hcm : dget ekvs "comment" = some cm)
    (hmap : impl_to_diff nm = .ok (some dk))
    (hnone : ∀ i, i < slots.length →
      pyContains (slots.getD i .null) dk = .ok false) :
    applyEntry (.obj mkvs) (.obj ekvs) = .ok (.obj mkvs) := by
  unfold applyEntry
  simp only [getItem, hn, hts, hin, hcm, hmap, hi]
  rw [updateFirstSlot_id dk ts insf cm slots hnone]
  simp only [setItem, Except.ok.injEq, Json.obj.injEq]
  exact dset_eq_of_dget mkvs "implementations" (Json.arr slots) hi

/-- Reduction of `update_metadata` when the analysis result is an object
carrying only an `implementations` list. -/
theorem update_metadata_impl_only (md : Json) (es : List Json) (md₁ : Json)
    (h : es.foldlM applyEntry md = .ok md₁) :
    update_metadata md (.obj [("implementations", .arr es)]) = .ok md₁ := by
  unfold update_metadata
  rw [show getItem (Json.obj [("implementations", Json.arr es)])
    "implementations" = .ok (.arr es) from rfl]
  simp only []
  rw [show iterEntries (Json.arr es) md = es.foldlM applyEntry md from rfl]
  rw [h]
  rfl

theorem except_bind_error {ε α β : Type} (e : ε) (f : α → Except ε β) :
    (Except.error (α := α) e >>= f) = .error e := rfl

/-- `applyEntry` on a complete entry whose `name` is unhashable: the
`impl_to_diff.get(name)` lookup raises, and the whole entry processing
aborts with that error. -/
theorem applyEntry_name_unhashable (md : Json) (ekvs : List (String × Json))
    (nmJ ts insf cm : Json) (e : PyErr)
    (hn : dget ekvs "name" = some nmJ)
    (hts : dget ekvs "task_success" = some ts)
    (hin : dget ekvs "instruction_following" = some insf)
    (hcm : dget ekvs "comment" = some cm)
    (hmap : impl_to_diff nmJ = .error e) :
    applyEntry md (.obj ekvs) = .error e := by
  unfold applyEntry
  simp only [getItem, hn, hts, hin, hcm, hmap]

/-- Reduction of `update_metadata` when the analysis result is an object
carrying only an `implementations` list and the entry fold raises: the
exception propagates out of `update_metadata`. -/
theorem update_metadata_impl_only_error (md : Json) (es : List Json)
    (e : PyErr) (h : es.foldlM applyEntry md = .error e) :
    update_metadata md (.obj [("implementations", .arr es)]) = .error e := by
  unfold update_metadata
  rw [show getItem (Json.obj [("implementations", Json.arr es)])
    "implementations" = .ok (.arr es) from rfl]
  simp only []
  rw [show iterEntries (Json.arr es) md = es.foldlM applyEntry md from rfl]
  rw [h]

/-- Slot facts for key `dkn` survive the rewriting of a different slot
`jm`: the `jn` slot keeps its dict, and no slot other than `jn` comes to
carry `dkn` (the three score fields are not diff keys). -/
theorem slotFacts_step (cur : List Json) (jm jn : Nat)
    (kvsm kvsn : List (String × Json)) (tsm insfm cmm : Json) (dkn : String)
    (hjm : jm < cur.length) (hne : jm ≠ jn) (hdk : dkn ∉ scoreKeys)
    (hatm : cur.getD jm .null = .obj kvsm)
    (hatn : cur.getD jn .null = .obj kvsn)
    (hinv : ∀ i, i < cur.length → i ≠ jn →
      pyContains (cur.getD i .null) dkn = .ok false) :
    (cur.set jm (.obj (setScores kvsm tsm insfm cmm))).getD jn .null =
      .obj kvsn ∧
    ∀ i, i < cur.length → i ≠ jn →
      pyContains ((cur.set jm (.obj (setScores kvsm tsm insfm cmm))).getD i
        .null) dkn = .ok false := by
  constructor
  · rw [getD_set_ne _ _ _ _ _ (Ne.symm hne)]
    exact hatn
  · intro i hil hin
    by_cases hij : i = jm
    · subst hij
      rw [getD_set_self _ _ _ _ hjm]
      rw [pyContains_setScores kvsm tsm insfm cmm dkn hdk]
      rw [← hatm]
      exact hinv i hil hin
    · rw [getD_set_ne _ _ _ _ _ hij]
      exact hinv i hil hin

theorem except_bind_ok {ε α β : Type} (a : α) (f : α → Except ε β) :
    (Except.ok (ε := ε) a >>= f) = f a := rfl

theorem update_metadata_four_entry_target
    (mkvs : List (String × Json)) (slots : List Json)
    (ts₁ insf₁ cm₁ ts₂ insf₂ cm₂ ts₃ insf₃ cm₃ ts₄ insf₄ cm₄ : Json)
    (j₁ j₂ j₃ j₄ : Nat)
    (kvs₁ kvs₂ kvs₃ kvs₄ : List (String × Json))
    (hi : dget mkvs "implementations" = some (.arr slots))
    (hj₁ : j₁ < slots.length) (hj₂ : j₂ < slots.length)
    (hj₃ : j₃ < slots.length) (hj₄ : j₄ < slots.length)
    (h12 : j₁ ≠ j₂) (h13 : j₁ ≠ j₃) (h14 : j₁ ≠ j₄)
    (h23 : j₂ ≠ j₃) (h24 : j₂ ≠ j₄) (h34 : j₃ ≠ j₄)
    (hat₁ : slots.getD j₁ .null = .obj kvs₁)
    (hc₁ : (dget kvs₁ "diff_1").isSome = true)
    (hu₁ : ∀ i, i < slots.length → i ≠ j₁ →
      pyContains (slots.getD i .null) "diff_1" = .ok false)
    (hat₂ : slots.getD j₂ .null = .obj kvs₂)
    (hc₂ : (dget kvs₂ "diff_2").isSome = true)
    (hu₂ : ∀ i, i < slots.length → i ≠ j₂ →
      pyContains (slots.getD i .null) "diff_2" = .ok false)
    (hat₃ : slots.getD j₃ .null = .obj kvs₃)
    (hc₃ : (dget kvs₃ "diff_3").isSome = true)
    (hu₃ : ∀ i, i < slots.length → i ≠ j₃ →
      pyContains (slots.getD i .null) "diff_3" = .ok false)
    (hat₄ : slots.getD j₄ .null = .obj kvs₄)
    (hc₄ : (dget kvs₄ "diff_4").isSome = true)
    (hu₄ : ∀ i, i < slots.length → i ≠ j₄ →
      pyContains (slots.getD i .null) "diff_4" = .ok false) :
    update_metadata (.obj mkvs)
      (.obj [("implementations", .arr
        [mkImplEntry "impl_1" ts₁ insf₁ cm₁,
         mkImplEntry "impl_2" ts₂ insf₂ cm₂,
         mkImplEntry "impl_3" ts₃ insf₃ cm₃,
         mkImplEntry "impl_4" ts₄ insf₄ cm₄])]) =
      .ok (.obj (dset mkvs "implementations" (.arr
        ((((slots.set j₁ (.obj (setScores kvs₁ ts₁ insf₁ cm₁))).set j₂
          (.obj (setScores kvs₂ ts₂ insf₂ cm₂))).set j₃
          (.obj (setScores kvs₃ ts₃ insf₃ cm₃))).set j₄
          (.obj (setScores kvs₄ ts₄ insf₄ cm₄)))))) := by
  have st1 : applyEntry (.obj mkvs) (mkImplEntry "impl_1" ts₁ insf₁ cm₁) =
      .ok (.obj (dset mkvs "implementations" (.arr
        (slots.set j₁ (.obj (setScores kvs₁ ts₁ insf₁ cm₁)))))) :=
    applyEntry_targets mkvs slots _ (Json.str "impl_1") "diff_1"
      ts₁ insf₁ cm₁ j₁ kvs₁ hi rfl rfl rfl rfl rfl hj₁
      (fun i hlt => hu₁ i (by omega) (by omega)) hat₁ hc₁
  have f21 := slotFacts_step slots j₁ j₂ kvs₁ kvs₂ ts₁ insf₁ cm₁ "diff_2"
    hj₁ h12 (by decide) hat₁ hat₂ hu₂
  have f31 := slotFacts_step slots j₁ j₃ kvs₁ kvs₃ ts₁ insf₁ cm₁ "diff_3"
    hj₁ h13 (by decide) hat₁ hat₃ hu₃
  have f41 := slotFacts_step slots j₁ j₄ kvs₁ kvs₄ ts₁ insf₁ cm₁ "diff_4"
    hj₁ h14 (by decide) hat₁ hat₄ hu₄
  have st2 : applyEntry
      (.obj (dset mkvs "implementations" (.arr
        (slots.set j₁ (.obj (setScores kvs₁ ts₁ insf₁ cm₁))))))
      (mkImplEntry "impl_2" ts₂ insf₂ cm₂) =
      .ok (.obj (dset mkvs "implementations" (.arr
        ((slots.set j₁ (.obj (setScores kvs₁ ts₁ insf₁ cm₁))).set j₂
          (.obj (setScores kvs₂ ts₂ insf₂ cm₂)))))) := by
    have := applyEntry_targets
      (dset mkvs "implementations" (.arr
        (slots.set j₁ (.obj (setScores kvs₁ ts₁ insf₁ cm₁)))))
      (slots.set j₁ (.obj (setScores kvs₁ ts₁ insf₁ cm₁)))
      [("name", Json.str "impl_2"), ("task_success", ts₂),
        ("instruction_following", insf₂), ("comment", cm₂)]
      (Json.str "impl_2") "diff_2" ts₂ insf₂ cm₂ j₂ kvs₂
      (dget_dset_self mkvs "implementations" _) rfl rfl rfl rfl rfl
      (by rw [List.length_set]; exact hj₂)
      (fun i hlt => f21.2 i (by omega) (by omega)) f21.1 hc₂
    rw [dset_dset_same] at this
    exact this
  have f32 := slotFacts_step
    (slots.set j₁ (.obj (setScores kvs₁ ts₁ insf₁ cm₁))) j₂ j₃ kvs₂ kvs₃
    ts₂ insf₂ cm₂ "diff_3" (by rw [List.length_set]; exact hj₂) h23
    (by decide) f21.1 f31.1
    (fun i hil hin => f31.2 i (by rw [List.length_set] at hil; exact hil) hin)
  have f42 := slotFacts_step
    (slots.set j₁ (.obj (setScores kvs₁ ts₁ insf₁ cm₁))) j₂ j₄ kvs₂ kvs₄
    ts₂ insf₂ cm₂ "diff_4" (by rw [List.length_set]; exact hj₂) h24
    (by decide) f21.1 f41.1
    (fun i hil hin => f41.2 i (by rw [List.length_set] at hil; exact hil) hin)
  have st3 : applyEntry
      (.obj (dset mkvs "implementations" (.arr
        ((slots.set j₁ (.obj (setScores kvs₁ ts₁ insf₁ cm₁))).set j₂
          (.obj (setScores kvs₂ ts₂ insf₂ cm₂))))))
      (mkImplEntry "impl_3" ts₃ insf₃ cm₃) =
      .ok (.obj (dset mkvs "implementations" (.arr
        (((slots.set j₁ (.obj (setScores kvs₁ ts₁ insf₁ cm₁))).set j₂
          (.obj (setScores kvs₂ ts₂ insf₂ cm₂))).set j₃
          (.obj (setScores kvs₃ ts₃ insf₃ cm₃)))))) := by
    have := applyEntry_targets
      (dset mkvs "implementations" (.arr
        ((slots.set j₁ (.obj (setScores kvs₁ ts₁ insf₁ cm₁))).set j₂
          (.obj (setScores kvs₂ ts₂ insf₂ cm₂)))))
      ((slots.set j₁ (.obj (setScores kvs₁ ts₁ insf₁ cm₁))).set j₂
        (.obj (setScores kvs₂ ts₂ insf₂ cm₂)))
      [("name", Json.str "impl_3"), ("task_success", ts₃),
        ("instruction_following", insf₃), ("comment", cm₃)]
      (Json.str "impl_3") "diff_3" ts₃ insf₃ cm₃ j₃ kvs₃
      (dget_dset_self mkvs "implementations" _) rfl rfl rfl rfl rfl
      (by rw [List.length_set, List.length_set]; exact hj₃)
      (fun i hlt => f32.2 i (by rw [List.length_set]; omega) (by omega))
      f32.1 hc₃
    rw [dset_dset_same] at this
    exact this
  have f43 := slotFacts_step
    ((slots.set j₁ (.obj (setScores kvs₁ ts₁ insf₁ cm₁))).set j₂
      (.obj (setScores kvs₂ ts₂ insf₂ cm₂))) j₃ j₄ kvs₃ kvs₄
    ts₃ insf₃ cm₃ "diff_4"
    (by rw [List.length_set, List.length_set]; exact hj₃) h34
    (by decide) f32.1 f42.1
    (fun i hil hin => f42.2 i (by rw [List.length_set] at hil; exact hil)
      hin)
  have st4 : applyEntry
      (.obj (dset mkvs "implementations" (.arr
        (((slots.set j₁ (.obj (setScores kvs₁ ts₁ insf₁ cm₁))).set j₂
          (.obj (setScores kvs₂ ts₂ insf₂ cm₂))).set j₃
          (.obj (setScores kvs₃ ts₃ insf₃ cm₃))))))
      (mkImplEntry "impl_4" ts₄ insf₄ cm₄) =
      .ok (.obj (dset mkvs "implementations" (.arr
        ((((slots.set j₁ (.obj (setScores kvs₁ ts₁ insf₁ cm₁))).set j₂
          (.obj (setScores kvs₂ ts₂ insf₂ cm₂))).set j₃
          (.obj (setScores kvs₃ ts₃ insf₃ cm₃))).set j₄
          (.obj (setScores kvs₄ ts₄ insf₄ cm₄)))))) := by
    have := applyEntry_targets
      (dset mkvs "implementations" (.arr
        (((slots.set j₁ (.obj (setScores kvs₁ ts₁ insf₁ cm₁))).set j₂
          (.obj (setScores kvs₂ ts₂ insf₂ cm₂))).set j₃
          (.obj (setScores kvs₃ ts₃ insf₃ cm₃)))))
      (((slots.set j₁ (.obj (setScores kvs₁ ts₁ insf₁ cm₁))).set j₂
        (.obj (setScores kvs₂ ts₂ insf₂ cm₂))).set j₃
        (.obj (setScores kvs₃ ts₃ insf₃ cm₃)))
      [("name", Json.str "impl_4"), ("task_success", ts₄),
        ("instruction_following", insf₄), ("comment", cm₄)]
      (Json.str "impl_4") "diff_4" ts₄ insf₄ cm₄ j₄ kvs₄
      (dget_dset_self mkvs "implementations" _) rfl rfl rfl rfl rfl
      (by rw [List.length_set, List.length_set, List.length_set]; exact hj₄)
      (fun i hlt => f43.2 i (by rw [List.length_set, List.length_set]; omega)
        (by omega))
      f43.1 hc₄
    rw [dset_dset_same] at this
    exact this
  apply update_metadata_impl_only
  rw [List.foldlM_cons, st1, except_bind_ok]
  rw [List.foldlM_cons, st2, except_bind_ok]
  rw [List.foldlM_cons, st3, except_bind_ok]
  rw [List.foldlM_cons, st4, except_bind_ok]
  rfl

/-- C4: (1) merging an evaluation result naming `impl_1`..`impl_4` with
complete score entries into a metadata record whose slots carry
`diff_1`..`diff_4` at positions `j₁`..`j₄` (in any order, each key in
exactly one slot) writes entry `n`'s two scores and comment into exactly
the slot holding `diff_n`: the merge succeeds, slot `jₙ` becomes its old
dict with the three score fields set, and every slot outside
`{j₁,j₂,j₃,j₄}` is untouched; (2) an entry whose hashable name maps to no
diff key (`impl_to_diff.get(name)` returns `None`) is skipped without
error and without modifying anything; (3) an entry whose diff key appears
in no slot likewise leaves the metadata exactly as it was; (4) an entry
whose name is unhashable (a list or dict), for which
`impl_to_diff.get(name)` raises `TypeError`, aborts the merge with that
error and writes nothing. -/
theorem update_metadata_slot_targeting :
    (∀ (mkvs : List (String × Json)) (slots : List Json)
      (ts₁ insf₁ cm₁ ts₂ insf₂ cm₂ ts₃ insf₃ cm₃ ts₄ insf₄ cm₄ : Json)
      (j₁ j₂ j₃ j₄ : Nat) (kvs₁ kvs₂ kvs₃ kvs₄ : List (String × Json)),
      dget mkvs "implementations" = some (.arr slots) →
      j₁ < slots.length → j₂ < slots.length →
      j₃ < slots.length → j₄ < slots.length →
      j₁ ≠ j₂ → j₁ ≠ j₃ → j₁ ≠ j₄ → j₂ ≠ j₃ → j₂ ≠ j₄ → j₃ ≠ j₄ →
      slots.getD j₁ .null = .obj kvs₁ →
      (dget kvs₁ "diff_1").isSome = true →
      (∀ i, i < slots.length → i ≠ j₁ →
        pyContains (slots.getD i .null) "diff_1" = .ok false) →
      slots.getD j₂ .null = .obj kvs₂ →
      (dget kvs₂ "diff_2").isSome = true →
      (∀ i, i < slots.length → i ≠ j₂ →
        pyContains (slots.getD i .null) "diff_2" = .ok false) →
      slots.getD j₃ .null = .obj kvs₃ →
      (dget kvs₃ "diff_3").isSome = true →
      (∀ i, i < slots.length → i ≠ j₃ →
        pyContains (slots.getD i .null) "diff_3" = .ok false) →
      slots.getD j₄ .null = .obj kvs₄ →
      (dget kvs₄ "diff_4").isSome = true →
      (∀ i, i < slots.length → i ≠ j₄ →
        pyContains (slots.getD i .null) "diff_4" = .ok false) →
      update_metadata (.obj mkvs)
        (.obj [("implementations", .arr
          [mkImplEntry "impl_1" ts₁ insf₁ cm₁,
           mkImplEntry "impl_2" ts₂ insf₂ cm₂,
           mkImplEntry "impl_3" ts₃ insf₃ cm₃,
           mkImplEntry "impl_4" ts₄ insf₄ cm₄])]) =
        .ok (.obj (dset mkvs "implementations" (.arr
          ((((slots.set j₁ (.obj (setScores kvs₁ ts₁ insf₁ cm₁))).set j₂
            (.obj (setScores kvs₂ ts₂ insf₂ cm₂))).set j₃
            (.obj (setScores kvs₃ ts₃ insf₃ cm₃))).set j₄
            (.obj (setScores kvs₄ ts₄ insf₄ cm₄)))))) ∧
      (∀ i, i < slots.length → i ≠ j₁ → i ≠ j₂ → i ≠ j₃ → i ≠ j₄ →
        ((((slots.set j₁ (.obj (setScores kvs₁ ts₁ insf₁ cm₁))).set j₂
          (.obj (setScores kvs₂ ts₂ insf₂ cm₂))).set j₃
          (.obj (setScores kvs₃ ts₃ insf₃ cm₃))).set j₄
          (.obj (setScores kvs₄ ts₄ insf₄ cm₄))).getD i .null =
          slots.getD i .null) ∧
      ((((slots.set j₁ (.obj (setScores kvs₁ ts₁ insf₁ cm₁))).set j₂
        (.obj (setScores kvs₂ ts₂ insf₂ cm₂))).set j₃
        (.obj (setScores kvs₃ ts₃ insf₃ cm₃))).set j₄
        (.obj (setScores kvs₄ ts₄ insf₄ cm₄))).getD j₁ .null =
        .obj (setScores kvs₁ ts₁ insf₁ cm₁) ∧
      ((((slots.set j₁ (.obj (setScores kvs₁ ts₁ insf₁ cm₁))).set j₂
        (.obj (setScores kvs₂ ts₂ insf₂ cm₂))).set j₃
        (.obj (setScores kvs₃ ts₃ insf₃ cm₃))).set j₄
        (.obj (setScores kvs₄ ts₄ insf₄ cm₄))).getD j₂ .null =
        .obj (setScores kvs₂ ts₂ insf₂ cm₂) ∧
      ((((slots.set j₁ (.obj (setScores kvs₁ ts₁ insf₁ cm₁))).set j₂
        (.obj (setScores kvs₂ ts₂ insf₂ cm₂))).set j₃
        (.obj (setScores kvs₃ ts₃ insf₃ cm₃))).set j₄
        (.obj (setScores kvs₄ ts₄ insf₄ cm₄))).getD j₃ .null =
        .obj (setScores kvs₃ ts₃ insf₃ cm₃) ∧
      ((((slots.set j₁ (.obj (setScores kvs₁ ts₁ insf₁ cm₁))).set j₂
        (.obj (setScores kvs₂ ts₂ insf₂ cm₂))).set j₃
        (.obj (setScores kvs₃ ts₃ insf₃ cm₃))).set j₄
        (.obj (setScores kvs₄ ts₄ insf₄ cm₄))).getD j₄ .null =
        .obj (setScores kvs₄ ts₄ insf₄ cm₄)) ∧
    (∀ (md nmJ ts insf cm : Json), impl_to_diff nmJ = .ok none →
      update_metadata md (.obj [("implementations", .arr
        [Json.obj [("name", nmJ), ("task_success", ts),
          ("instruction_following", insf), ("comment", cm)]])]) = .ok md) ∧
    (∀ (mkvs : List (String × Json)) (slots : List Json)
      (nm ts insf cm : Json) (dk : String),
      dget mkvs "implementations" = some (.arr slots) →
      impl_to_diff nm = .ok (some dk) →
      (∀ i, i < slots.length →
        pyContains (slots.getD i .null) dk = .ok false) →
      update_metadata (.obj mkvs) (.obj [("implementations", .arr
        [Json.obj [("name", nm), ("task_success", ts),
          ("instruction_following", insf), ("comment", cm)]])]) =
        .ok (.obj mkvs)) ∧
    (∀ (md nmJ ts insf cm : Json), impl_to_diff nmJ = .error .typeError →
      update_metadata md (.obj [("implementations", .arr
        [Json.obj [("name", nmJ), ("task_success", ts),
          ("instruction_following", insf), ("comment", cm)]])]) =
        .error .typeError) := by
  refine ⟨?_, ?_, ?_, ?_⟩
  · intro mkvs slots ts₁ insf₁ cm₁ ts₂ insf₂ cm₂ ts₃ insf₃ cm₃
      ts₄ insf₄ cm₄ j₁ j₂ j₃ j₄ kvs₁ kvs₂ kvs₃ kvs₄ hi hj₁ hj₂ hj₃ hj₄
      h12 h13 h14 h23 h24 h34 hat₁ hc₁ hu₁ hat₂ hc₂ hu₂ hat₃ hc₃ hu₃
      hat₄ hc₄ hu₄
    refine ⟨update_metadata_four_entry_target mkvs slots ts₁ insf₁ cm₁
      ts₂ insf₂ cm₂ ts₃ insf₃ cm₃ ts₄ insf₄ cm₄ j₁ j₂ j₃ j₄
      kvs₁ kvs₂ kvs₃ kvs₄ hi hj₁ hj₂ hj₃ hj₄ h12 h13 h14 h23 h24 h34
      hat₁ hc₁ hu₁ hat₂ hc₂ hu₂ hat₃ hc₃ hu₃ hat₄ hc₄ hu₄, ?_, ?_, ?_,
      ?_, ?_⟩
    · intro i _ hi1 hi2 hi3 hi4
      rw [getD_set_ne _ _ _ _ _ hi4, getD_set_ne _ _ _ _ _ hi3,
        getD_set_ne _ _ _ _ _ hi2, getD_set_ne _ _ _ _ _ hi1]
    · rw [getD_set_ne _ _ _ _ _ h14, getD_set_ne _ _ _ _ _ h13,
        getD_set_ne _ _ _ _ _ h12, getD_set_self _ _ _ _ hj₁]
    · rw [getD_set_ne _ _ _ _ _ h24, getD_set_ne _ _ _ _ _ h23,
        getD_set_self _ _ _ _ (by rw [List.length_set]; exact hj₂)]
    · rw [getD_set_ne _ _ _ _ _ h34,
        getD_set_self _ _ _ _
          (by rw [List.length_set, List.length_set]; exact hj₃)]
    · rw [getD_set_self _ _ _ _
        (by
          rw [List.length_set, List.length_set, List.length_set]
          exact hj₄)]
  · intro md nmJ ts insf cm hmap
    apply update_metadata_impl_only
    rw [List.foldlM_cons,
      applyEntry_unmapped md [("name", nmJ), ("task_success", ts),
        ("instruction_following", insf), ("comment", cm)]
        nmJ ts insf cm rfl rfl rfl rfl hmap,
      except_bind_ok]
    rfl
  · intro mkvs slots nm ts insf cm dk hi hmap hnone
    apply update_metadata_impl_only
    rw [List.foldlM_cons,
      applyEntry_nocontain mkvs slots [("name", nm), ("task_success", ts),
        ("instruction_following", insf), ("comment", cm)]
        nm ts insf cm dk hi rfl rfl rfl rfl hmap hnone,
      except_bind_ok]
    rfl
  · intro md nmJ ts insf cm hmap
    apply update_metadata_impl_only_error
    rw [List.foldlM_cons,
      applyEntry_name_unhashable md [("name", nmJ), ("task_success", ts),
        ("instruction_following", insf), ("comment", cm)]
        nmJ ts insf cm .typeError rfl rfl rfl rfl hmap,
      except_bind_error]

/-- Witness for C4: slots carrying `diff_2, diff_4, diff_1, diff_3` in
that scrambled order receive `impl_2, impl_4, impl_1, impl_3`'s scores
respectively. -/
theorem update_metadata_slot_targeting_witness :
    update_metadata
      (Json.obj [("implementations", Json.arr
        [Json.obj [("diff_2", Json.str "b")],
         Json.obj [("diff_4", Json.str "d")],
         Json.obj [("diff_1", Json.str "a")],
         Json.obj [("diff_3", Json.str "c")]])])
      (Json.obj [("implementations", Json.arr
        [mkImplEntry "impl_1" (Json.num 5 0) (Json.num 4 0) (Json.str "c1"),
         mkImplEntry "impl_2" (Json.num 3 0) (Json.num 2 0) (Json.str "c2"),
         mkImplEntry "impl_3" (Json.num 1 0) (Json.num 1 0) (Json.str "c3"),
         mkImplEntry "impl_4" (Json.num 2 0) (Json.num 5 0)
           (Json.str "c4")])]) =
      .ok (Json.obj [("implementations", Json.arr
        [Json.obj [("diff_2", Json.str "b"), ("task_success", Json.num 3 0),
          ("instruction_following", Json.num 2 0),
          ("comment", Json.str "c2")],
         Json.obj [("diff_4", Json.str "d"), ("task_success", Json.num 2 0),
          ("instruction_following", Json.num 5 0),
          ("comment", Json.str "c4")],
         Json.obj [("diff_1", Json.str "a"), ("task_success", Json.num 5 0),
          ("instruction_following", Json.num 4 0),
          ("comment", Json.str "c1")],
         Json.obj [("diff_3", Json.str "c"), ("task_success", Json.num 1 0),
          ("instruction_following", Json.num 1 0),
          ("comment", Json.str "c3")]])]) :=
  (update_metadata_slot_targeting.1
    [("implementations", Json.arr
      [Json.obj [("diff_2", Json.str "b")],
       Json.obj [("diff_4", Json.str "d")],
       Json.obj [("diff_1", Json.str "a")],
       Json.obj [("diff_3", Json.str "c")]])]
    [Json.obj [("diff_2", Json.str "b")],
     Json.obj [("diff_4", Json.str "d")],
     Json.obj [("diff_1", Json.str "a")],
     Json.obj [("diff_3", Json.str "c")]]
    (Json.num 5 0) (Json.num 4 0) (Json.str "c1")
    (Json.num 3 0) (Json.num 2 0) (Json.str "c2")
    (Json.num 1 0) (Json.num 1 0) (Json.str "c3")
    (Json.num 2 0) (Json.num 5 0) (Json.str "c4")
    2 0 3 1
    [("diff_1", Json.str "a")] [("diff_2", Json.str "b")]
    [("diff_3", Json.str "c")] [("diff_4", Json.str "d")]
    (by rfl) (by decide) (by decide) (by decide) (by decide)
    (by decide) (by decide) (by decide) (by decide) (by decide) (by decide)
    (by rfl) (by rfl) (by decide)
    (by rfl) (by rfl) (by decide)
    (by rfl) (by rfl) (by decide)
    (by rfl) (by rfl) (by decide)).1

/-! ### Claim theorems for the bootstrapper reset (C6) -/

/-- A successful `populate_metadata` run writes the fresh `task_id` and
leaves the template's `evaluation` section exactly as the template has it
(populate touches only `task_id`, `jira`, `task_details` and
`implementations`). -/
theorem populate_metadata_reset (tpl td : Json) (tid : String) (md : Json)
    (h : populate_metadata tpl td tid = .ok md) :
    jget md "evaluation" = jget tpl "evaluation" ∧
    jget md "task_id" = some (.str tid) := by
  unfold populate_metadata at h
  cases h1 : setItem tpl "task_id" (.str tid) with
  | error e => rw [h1] at h; cases h
  | ok md₁ =>
  rw [h1] at h
  simp only [] at h
  obtain ⟨tkvs0, rfl, rfl⟩ := setItem_ok h1
  cases h2 : pyGet td "jira_id" with
  | error e => rw [h2] at h; cases h
  | ok jv =>
  rw [h2] at h
  simp only [] at h
  simp only [setItem] at h
  cases h4 : getItem (Json.obj (dset (dset tkvs0 "task_id" (Json.str tid))
      "jira" (jv.getD (Json.str "")))) "task_details" with
  | error e => rw [h4] at h; cases h
  | ok td0 =>
  rw [h4] at h
  simp only [] at h
  cases h5 : task_detail_keys.foldlM (fun t k => setFromTask td k t) td0 with
  | error e => rw [h5] at h; cases h
  | ok td' =>
  rw [h5] at h
  simp only [] at h
  cases h6 : dget (dset (dset (dset tkvs0 "task_id" (Json.str tid)) "jira"
      (jv.getD (Json.str ""))) "task_details" td') "implementations" with
  | none => simp only [getItem, h6] at h; cases h
  | some impls =>
  simp only [getItem, h6] at h
  cases impls with
  | arr slots =>
      simp only [] at h
      cases h7 : setSlotFromTask td slots 0 "diff_1" with
      | error e => rw [h7] at h; cases h
      | ok s₁ =>
      rw [h7] at h
      simp only [] at h
      cases h8 : setSlotFromTask td s₁ 1 "diff_2" with
      | error e => rw [h8] at h; cases h
      | ok s₂ =>
      rw [h8] at h
      simp only [] at h
      cases h9 : setSlotFromTask td s₂ 2 "diff_3" with
      | error e => rw [h9] at h; cases h
      | ok s₃ =>
      rw [h9] at h
      simp only [] at h
      cases h10 : setSlotFromTask td s₃ 3 "diff_4" with
      | error e => rw [h10] at h; cases h
      | ok s₄ =>
      rw [h10] at h
      simp only [] at h
      simp only [setItem, Except.ok.injEq] at h
      subst h
      constructor
      · simp only [jget]
        rw [dget_dset_ne _ _ _ _ (by decide),
          dget_dset_ne _ _ _ _ (by decide),
          dget_dset_ne _ _ _ _ (by decide),
          dget_dset_ne _ _ _ _ (by decide)]
      · simp only [jget]
        rw [dget_dset_ne _ _ _ _ (by decide),
          dget_dset_ne _ _ _ _ (by decide),
          dget_dset_ne _ _ _ _ (by decide),
          dget_dset_self]
  | obj okvs => simp only [] at h; cases h
  | null => simp only [] at h; cases h
  | bool b => simp only [] at h; cases h
  | num m e => simp only [] at h; cases h
  | nan => simp only [] at h; cases h
  | posInf => simp only [] at h; cases h
  | negInf => simp only [] at h; cases h
  | str s => simp only [] at h; cases h

/-- C6: re-running the bootstrapper for a ticket whose metadata file
already exists gives a result completely independent of the prior file
content (any two prior contents `m₁`, `m₂` produce identical outcomes —
a template reset, not a merge), and on success the written metadata file
is exactly the populated template: it carries the fresh `task_id` and the
template's own `evaluation` section, so no evaluation data from the
previous run survives. -/
theorem create_task_reset_on_rerun (fs : FS) (p tid : String)
    (tkvs : List (String × Json)) (jid : String) (tpl m₁ m₂ : Json)
    (hp : p ≠ pyJoin (pyJoin "tasks" jid) "metadata.json")
    (htplp : "tasks/metadata_base.json" ≠
      pyJoin (pyJoin "tasks" jid) "metadata.json")
    (hread : fsRead fs p = some (.obj tkvs))
    (hjid : dget tkvs "jira_id" = some (.str jid))
    (hjt : pyTruthy (Json.str jid) = true)
    (htpl : fsRead fs "tasks/metadata_base.json" = some tpl) :
    create_task_folder_and_metadata
        (fsWrite fs (pyJoin (pyJoin "tasks" jid) "metadata.json") m₁) p tid =
      create_task_folder_and_metadata
        (fsWrite fs (pyJoin (pyJoin "tasks" jid) "metadata.json") m₂) p
        tid ∧
    (∀ folder,
      (create_task_folder_and_metadata
        (fsWrite fs (pyJoin (pyJoin "tasks" jid) "metadata.json") m₁) p
        tid).2 = .ok folder →
      folder = pyJoin "tasks" jid ∧
      ∃ final, populate_metadata tpl (.obj tkvs) tid = .ok final ∧
        fsRead (create_task_folder_and_metadata
          (fsWrite fs (pyJoin (pyJoin "tasks" jid) "metadata.json") m₁) p
          tid).1 (pyJoin (pyJoin "tasks" jid) "metadata.json") =
          some final ∧
        jget final "evaluation" = jget tpl "evaluation" ∧
        jget final "task_id" = some (.str tid)) := by
  have key : ∀ m : Json,
      create_task_folder_and_metadata
        (fsWrite fs (pyJoin (pyJoin "tasks" jid) "metadata.json") m) p tid =
      (match populate_metadata tpl (.obj tkvs) tid with
       | .error e =>
          (⟨pyJoin "tasks" jid :: fs.dirs,
            dset fs.files (pyJoin (pyJoin "tasks" jid) "metadata.json") tpl⟩,
            .error e)
       | .ok final =>
          (⟨pyJoin "tasks" jid :: fs.dirs,
            dset (dset fs.files (pyJoin (pyJoin "tasks" jid) "metadata.json")
              tpl) (pyJoin (pyJoin "tasks" jid) "metadata.json") final⟩,
            .ok (pyJoin "tasks" jid))) := by
    intro m
    unfold create_task_folder_and_metadata
    rw [show fsRead
        (fsWrite fs (pyJoin (pyJoin "tasks" jid) "metadata.json") m) p =
        some (.obj tkvs) from by
      simp only [fsRead, fsWrite]
      rw [dget_dset_ne _ _ _ _ hp]
      exact hread]
    simp only []
    rw [show pyGet (Json.obj tkvs) "jira_id" = .ok (some (.str jid)) from by
      simp [pyGet, hjid]]
    simp only []
    rw [show optTruthy (some (Json.str jid)) = true from hjt]
    rw [if_pos rfl]
    rw [show fsRead
        (fsMkdir (fsWrite fs (pyJoin (pyJoin "tasks" jid) "metadata.json") m)
          (pyJoin "tasks" jid)) "tasks/metadata_base.json" = some tpl from by
      simp only [fsRead, fsWrite, fsMkdir]
      rw [dget_dset_ne _ _ _ _ htplp]
      exact htpl]
    simp only []
    rw [show fsRead
        (fsWrite
          (fsMkdir (fsWrite fs (pyJoin (pyJoin "tasks" jid) "metadata.json")
            m) (pyJoin "tasks" jid))
          (pyJoin (pyJoin "tasks" jid) "metadata.json") tpl)
        (pyJoin (pyJoin "tasks" jid) "metadata.json") = some tpl from by
      simp only [fsRead, fsWrite, fsMkdir]
      exact dget_dset_self _ _ _]
    simp only [fsWrite, fsMkdir, fsRead]
    rw [dset_dset_same]
  refine ⟨(key m₁).trans (key m₂).symm, ?_⟩
  intro folder hfolder
  rw [key m₁] at hfolder ⊢
  cases hpop : populate_metadata tpl (.obj tkvs) tid with
  | error e =>
      rw [hpop] at hfolder
      cases hfolder
  | ok final =>
      rw [hpop] at hfolder
      simp only [] at hfolder
      injection hfolder with hfold
      obtain ⟨hev, hti⟩ := populate_metadata_reset tpl (.obj tkvs) tid
        final hpop
      refine ⟨hfold.symm, final, rfl, ?_, hev, hti⟩
      simp only [fsRead]
      exact dget_dset_self _ _ _

/-- Witness for C6: two re-runs over different pre-existing metadata
contents (one holding stale evaluation data) produce identical results,
and the written file is the populated template with the fresh task id and
the template's evaluation section. -/
theorem create_task_reset_on_rerun_witness :
    create_task_folder_and_metadata
      (fsWrite ⟨[], [("task_data.json",
          Json.obj [("jira_id", Json.str "PROJ-1")]),
        ("tasks/metadata_base.json", Json.obj [("task_id", Json.str ""),
          ("jira", Json.str ""), ("task_details", Json.obj []),
          ("implementations", Json.arr [Json.obj [("diff_1", Json.str "")],
            Json.obj [("diff_2", Json.str "")],
            Json.obj [("diff_3", Json.str "")],
            Json.obj [("diff_4", Json.str "")]]),
          ("evaluation", Json.obj [("best_diff", Json.num 0 0)])])]⟩
        "tasks/PROJ-1/metadata.json"
        (Json.obj [("evaluation", Json.str "OLD-RUN-DATA")]))
      "task_data.json" "uuid-xyz" =
    create_task_folder_and_metadata
      (fsWrite ⟨[], [("task_data.json",
          Json.obj [("jira_id", Json.str "PROJ-1")]),
        ("tasks/metadata_base.json", Json.obj [("task_id", Json.str ""),
          ("jira", Json.str ""), ("task_details", Json.obj []),
          ("implementations", Json.arr [Json.obj [("diff_1", Json.str "")],
            Json.obj [("diff_2", Json.str "")],
            Json.obj [("diff_3", Json.str "")],
            Json.obj [("diff_4", Json.str "")]]),
          ("evaluation", Json.obj [("best_diff", Json.num 0 0)])])]⟩
        "tasks/PROJ-1/metadata.json" Json.null)
      "task_data.json" "uuid-xyz" ∧
    (∃ final,
      populate_metadata (Json.obj [("task_id", Json.str ""),
          ("jira", Json.str ""), ("task_details", Json.obj []),
          ("implementations", Json.arr [Json.obj [("diff_1", Json.str "")],
            Json.obj [("diff_2", Json.str "")],
            Json.obj [("diff_3", Json.str "")],
            Json.obj [("diff_4", Json.str "")]]),
          ("evaluation", Json.obj [("best_diff", Json.num 0 0)])])
        (Json.obj [("jira_id", Json.str "PROJ-1")]) "uuid-xyz" =
        .ok final ∧
      fsRead (create_task_folder_and_metadata
        (fsWrite ⟨[], [("task_data.json",
            Json.obj [("jira_id", Json.str "PROJ-1")]),
          ("tasks/metadata_base.json", Json.obj [("task_id", Json.str ""),
            ("jira", Json.str ""), ("task_details", Json.obj []),
            ("implementations", Json.arr [Json.obj [("diff_1", Json.str "")],
              Json.obj [("diff_2", Json.str "")],
              Json.obj [("diff_3", Json.str "")],
              Json.obj [("diff_4", Json.str "")]]),
            ("evaluation", Json.obj [("best_diff", Json.num 0 0)])])]⟩
          "tasks/PROJ-1/metadata.json"
          (Json.obj [("evaluation", Json.str "OLD-RUN-DATA")]))
        "task_data.json" "uuid-xyz").1 "tasks/PROJ-1/metadata.json" =
        some final ∧
      jget final "evaluation" = jget (Json.obj [("task_id", Json.str ""),
          ("jira", Json.str ""), ("task_details", Json.obj []),
          ("implementations", Json.arr [Json.obj [("diff_1", Json.str "")],
            Json.obj [("diff_2", Json.str "")],
            Json.obj [("diff_3", Json.str "")],
            Json.obj [("diff_4", Json.str "")]]),
          ("evaluation", Json.obj [("best_diff", Json.num 0 0)])])
        "evaluation" ∧
      jget final "task_id" = some (.str "uuid-xyz")) :=
  have happly := create_task_reset_on_rerun
    ⟨[], [("task_data.json", Json.obj [("jira_id", Json.str "PROJ-1")]),
      ("tasks/metadata_base.json", Json.obj [("task_id", Json.str ""),
        ("jira", Json.str ""), ("task_details", Json.obj []),
        ("implementations", Json.arr [Json.obj [("diff_1", Json.str "")],
          Json.obj [("diff_2", Json.str "")],
          Json.obj [("diff_3", Json.str "")],
          Json.obj [("diff_4", Json.str "")]]),
        ("evaluation", Json.obj [("best_diff", Json.num 0 0)])])]⟩
    "task_data.json" "uuid-xyz" [("jira_id", Json.str "PROJ-1")] "PROJ-1"
    (Json.obj [("task_id", Json.str ""), ("jira", Json.str ""),
      ("task_details", Json.obj []),
      ("implementations", Json.arr [Json.obj [("diff_1", Json.str "")],
        Json.obj [("diff_2", Json.str "")],
        Json.obj [("diff_3", Json.str "")],
        Json.obj [("diff_4", Json.str "")]]),
      ("evaluation", Json.obj [("best_diff", Json.num 0 0)])])
    (Json.obj [("evaluation", Json.str "OLD-RUN-DATA")]) Json.null
    (by decide) (by decide) (by rfl) (by rfl) (by rfl) (by rfl)
  ⟨happly.1, (happly.2 "tasks/PROJ-1" (by rfl)).2⟩

end AgentBuilder
